import Mathlib

/-!
Verification development for the expense-report receipt lifecycle and
two-stage approval workflow of the `combo-app` repository.

The definitions below are shallow embeddings of the relevant source
functions:

* the approval decision transaction of
  `apps/expenses/server/src/routes/adminApprovals.ts`;
* the report submission transaction of
  `apps/expenses/server/src/routes/reports.ts` (including the receipt
  late-binding reconciliation);
* the CSV export generator of
  `apps/expenses/server/src/routes/adminReports.ts`;
* the client-side IndexedDB Draft Store
  (`saveReceiptsForExpense` / `getStoredReceipts` / `deleteReceipts` /
  `clearReceiptsForDraft`);
* the client-side submission flow of `apps/expenses/src/main.js`
  (`uploadReceiptsForExpense`, `uploadPendingReceipts`, `finalizeSubmit`).

Databases are modelled as explicit row lists, Prisma transactions as pure
`Except` steps (a thrown error rolls the transaction back, i.e. leaves the
state unchanged), and machine-generated identifiers as explicitly supplied
fresh values.
-/

namespace ComboApp

/-! ### Shared enums (Prisma schema / migration 20251015120000_approvals) -/

inductive ReportStatus where
  | SUBMITTED
  | MANAGER_APPROVED
  | FINANCE_APPROVED
  | REJECTED
deriving DecidableEq, Repr

inductive ApprovalStage where
  | MANAGER
  | FINANCE
deriving DecidableEq, Repr

inductive ApprovalStatus where
  | PENDING
  | APPROVED
  | REJECTED
deriving DecidableEq, Repr

inductive AdminRole where
  | ADMIN
  | MANAGER
  | ANALYST
  | CFO
  | SUPER
  | FINANCE
deriving DecidableEq, Repr

inductive DecisionAction where
  | approve
  | reject
deriving DecidableEq, Repr

/-! ### String helpers (JavaScript `trim` / `toLowerCase`, modelled over
character lists so that concrete instances evaluate) -/

def isWsChar (c : Char) : Bool :=
  c = ' ' || c = '\t' || c = '\n' || c = '\r'

/-- `String.prototype.trim`. -/
def trimString (s : String) : String :=
  String.mk (((s.toList.dropWhile isWsChar).reverse.dropWhile isWsChar).reverse)

def toLowerChar (c : Char) : Char :=
  if 'A' ≤ c && c ≤ 'Z' then Char.ofNat (c.toNat + 32) else c

/-- `String.prototype.toLowerCase` (ASCII range, which is all the code
normalizes in practice). -/
def toLowerString (s : String) : String :=
  String.mk (s.toList.map toLowerChar)

/-- The Prisma enum value as serialized (its name). -/
def ReportStatus.label : ReportStatus → String
  | .SUBMITTED => "SUBMITTED"
  | .MANAGER_APPROVED => "MANAGER_APPROVED"
  | .FINANCE_APPROVED => "FINANCE_APPROVED"
  | .REJECTED => "REJECTED"

def ApprovalStatus.label : ApprovalStatus → String
  | .PENDING => "PENDING"
  | .APPROVED => "APPROVED"
  | .REJECTED => "REJECTED"

/-! ### Approval rows and the decision transaction
(`adminApprovals.ts`, `router.post('/:reportId/decision')`) -/

/-- One `report_approvals` row (per `(report, stage)` pair). -/
structure Approval where
  status : ApprovalStatus
  decidedBy : Option String
  decidedAt : Option Nat
  note : Option String
deriving DecidableEq, Repr

/-- The durable state of a single report that the decision transaction
touches: `reports.status` plus the two stage approval rows (both rows are
created at submission and never deleted). -/
structure ReportState where
  status : ReportStatus
  manager : Approval
  finance : Approval
deriving DecidableEq, Repr

/-- `stageRoleMap` from `adminApprovals.ts`. -/
def stageRoleMap (stage : ApprovalStage) : List AdminRole :=
  match stage with
  | .MANAGER => [.MANAGER, .ANALYST, .CFO, .SUPER]
  | .FINANCE => [.CFO, .SUPER, .FINANCE]

/-- `canActOnStage` from `adminApprovals.ts`. -/
def canActOnStage (role : AdminRole) (stage : ApprovalStage) : Bool :=
  (stageRoleMap stage).contains role

/-- Error outcomes of the decision route: 400 (zod validation), 403
(insufficient role), and the two 409 conflicts thrown inside the
transaction. -/
inductive DecisionError where
  | validation
  | forbidden
  | alreadyDecided
  | managerRequired
deriving DecidableEq, Repr

/-- HTTP 409 outcomes. -/
def DecisionError.isConflict : DecisionError → Bool
  | .alreadyDecided => true
  | .managerRequired => true
  | _ => false

/-- Note normalization: zod `.trim()` then the handler's
`note && note.length > 0 ? note : undefined`, stored as `note ?? null`. -/
def normalizeNote (note : Option String) : Option String :=
  match note with
  | none => none
  | some s => if trimString s = "" then none else some (trimString s)

/-- The stage approval row targeted by a decision. -/
def ReportState.approvalOf (r : ReportState) (stage : ApprovalStage) : Approval :=
  match stage with
  | .MANAGER => r.manager
  | .FINANCE => r.finance

/-- Shallow embedding of the decision transaction in
`adminApprovals.ts` (`router.post('/:reportId/decision')`).  An
`Except.error` models a thrown error, which rolls the Prisma transaction
back.  The 404 path (unknown report) is outside this model: `r` is the
state of an existing report with both approval rows present (so the
`.catch` guard on the FINANCE reset never fires). -/
def decideStage (role : AdminRole) (r : ReportState) (stage : ApprovalStage)
    (action : DecisionAction) (actor : String) (now : Nat)
    (note : Option String) : Except DecisionError ReportState :=
  if (note.map (fun s => (trimString s).length)).getD 0 > 1000 then
    .error .validation
  else if ¬ canActOnStage role stage then
    .error .forbidden
  else
    let approval := r.approvalOf stage
    if approval.status ≠ .PENDING then
      .error .alreadyDecided
    else if stage = .FINANCE ∧ r.manager.status ≠ .APPROVED then
      .error .managerRequired
    else
      let nextApprovalStatus :=
        if action = .approve then ApprovalStatus.APPROVED else ApprovalStatus.REJECTED
      let nextReportStatus :=
        if action ≠ .approve then ReportStatus.REJECTED
        else if stage = .MANAGER then ReportStatus.MANAGER_APPROVED
        else ReportStatus.FINANCE_APPROVED
      let decided : Approval :=
        { status := nextApprovalStatus
          decidedBy := some actor
          decidedAt := some now
          note := normalizeNote note }
      let resetFinance : Approval :=
        { status := .PENDING, decidedBy := none, decidedAt := none, note := none }
      let r1 :=
        match stage with
        | .MANAGER => { r with manager := decided, finance := resetFinance }
        | .FINANCE => { r with finance := decided }
      .ok { r1 with status := nextReportStatus }

/-- The durable state after a decision attempt: a thrown error rolls the
transaction back, leaving the rows unchanged. -/
def applyDecision (role : AdminRole) (r : ReportState) (stage : ApprovalStage)
    (action : DecisionAction) (actor : String) (now : Nat)
    (note : Option String) : ReportState :=
  match decideStage role r stage action actor now note with
  | .ok r' => r'
  | .error _ => r

/-! ### Durable rows and the submission transaction
(`reports.ts`, `router.post('/')`) -/

/-- One `reports` row (fields touched by the modelled routes;
`status` defaults to `SUBMITTED` per migration 20251015120000). -/
structure ReportRow where
  reportId : String
  employeeEmail : String
  finalizedAt : Nat
  managerEmail : String
  status : ReportStatus
deriving DecidableEq, Repr

/-- One `expenses` row.  `id` is the durable (server-issued) identifier;
`externalId` is the client draft identifier, when supplied. -/
structure ExpenseRow where
  id : Nat
  reportId : String
  externalId : Option String
  category : String
  amount : String
  currency : String
deriving DecidableEq, Repr

/-- One `report_approvals` row at database level. -/
structure ApprovalRow where
  reportId : String
  stage : ApprovalStage
  status : ApprovalStatus
  decidedBy : Option String
  decidedAt : Option Nat
  note : Option String
deriving DecidableEq, Repr

/-- One `receipts` row.  `clientExpenseId` is the draft-time expense
identifier, `expenseId` is null until reconciled. -/
structure ReceiptRow where
  id : Nat
  reportId : String
  clientExpenseId : Option String
  expenseId : Option Nat
  fileName : String
  contentType : String
  fileSize : Nat
  storageProvider : String
  storageBucket : Option String
  storageKey : String
  storageUrl : Option String
deriving DecidableEq, Repr

/-- The durable store.  `nextExpenseId` / `nextReceiptId` model the
supply of server-issued identifiers. -/
structure Db where
  reports : List ReportRow
  expenses : List ExpenseRow
  approvals : List ApprovalRow
  receipts : List ReceiptRow
  nextExpenseId : Nat
  nextReceiptId : Nat
deriving DecidableEq, Repr

/-- One element of the submitted `expenses[]` payload (already past
`reportSchema` parsing, hence well-typed). -/
structure ExpensePayload where
  expenseId : Option String
  category : String
  amount : String
  currency : String
deriving DecidableEq, Repr

/-- The submission payload (already past `reportSchema` parsing).
`headerManagerEmail` is `rawHeader.managerEmail` when it is a string. -/
structure ReportPayload where
  reportId : String
  employeeEmail : String
  finalizedAt : Nat
  headerManagerEmail : Option String
  expenses : List ExpensePayload
deriving DecidableEq, Repr

inductive SubmitError where
  | validation
  | duplicate
deriving DecidableEq, Repr

/-- JavaScript truthiness of an optional string (both `null`/`undefined`
and the empty string are falsy). -/
def truthy (s : Option String) : Bool :=
  match s with
  | none => false
  | some v => v ≠ ""

/-- The receipt late-binding lookup of `reports.ts`: the `Map` is built
from the report's expenses whose `externalId` is truthy, so a later
expense with the same `externalId` overwrites an earlier one. -/
def lookupExpenseId (reportExpenses : List ExpenseRow) (c : String) : Option Nat :=
  ((reportExpenses.filter (fun e0 => truthy e0.externalId)).reverse.find?
      (fun e0 => e0.externalId = some c)).map (fun e0 => e0.id)

/-- The late-binding step applied to one receipt row inside the
submission transaction: receipts of the submitted report carrying a
truthy `clientExpenseId` are linked to the expense whose `externalId`
matches (the "skip when already equal" branch of the source produces the
same row). -/
def rebindReceipt (reportId : String) (reportExpenses : List ExpenseRow)
    (rc : ReceiptRow) : ReceiptRow :=
  if rc.reportId = reportId then
    match rc.clientExpenseId with
    | none => rc
    | some c =>
      if c = "" then rc
      else
        match lookupExpenseId reportExpenses c with
        | none => rc
        | some i => { rc with expenseId := some i }
  else rc

/-- Shallow embedding of the submission transaction in `reports.ts`
(`router.post('/')`).  Manager-email normalization and the empty check
happen before the transaction (400).  The duplicate `reportId` check
models the `P2002` unique-constraint violation on `report.create`
(mapped to 409 `REPORT_EXISTS`).  On success the transaction creates the
report row (status defaulting to `SUBMITTED`), one expense row per
payload expense, the two `PENDING` approval rows, and then re-binds the
report's receipt rows. -/
def submitReport (db : Db) (p : ReportPayload) : Except SubmitError Db :=
  let managerEmail := toLowerString (trimString (p.headerManagerEmail.getD ""))
  if managerEmail = "" then .error .validation
  else if db.reports.any (fun r => r.reportId = p.reportId) then .error .duplicate
  else
    let newReport : ReportRow :=
      { reportId := p.reportId
        employeeEmail := toLowerString p.employeeEmail
        finalizedAt := p.finalizedAt
        managerEmail := managerEmail
        status := .SUBMITTED }
    let newExpenses : List ExpenseRow :=
      p.expenses.enum.map (fun ie =>
        { id := db.nextExpenseId + ie.1
          reportId := p.reportId
          externalId := ie.2.expenseId
          category := ie.2.category
          amount := ie.2.amount
          currency := ie.2.currency })
    let newApprovals : List ApprovalRow :=
      [ { reportId := p.reportId, stage := .MANAGER, status := .PENDING
          decidedBy := none, decidedAt := none, note := none }
      , { reportId := p.reportId, stage := .FINANCE, status := .PENDING
          decidedBy := none, decidedAt := none, note := none } ]
    let expenses1 := db.expenses ++ newExpenses
    let reportExpenses := expenses1.filter (fun e0 => e0.reportId = p.reportId)
    .ok
      { reports := db.reports ++ [newReport]
        expenses := expenses1
        approvals := db.approvals ++ newApprovals
        receipts := db.receipts.map (rebindReceipt p.reportId reportExpenses)
        nextExpenseId := db.nextExpenseId + p.expenses.length
        nextReceiptId := db.nextReceiptId }

/-- The durable store after a submission attempt (transaction rollback on
a thrown error). -/
def applySubmit (db : Db) (p : ReportPayload) : Db :=
  match submitReport db p with
  | .ok db' => db'
  | .error _ => db

/-! ### The export generator (`adminReports.ts`, `router.get('/')`) -/

/-- `csvValue` from `adminReports.ts`: `null`/`undefined` become the
empty field; a value containing a quote, comma or newline is wrapped in
quotes with inner quotes doubled. -/
def csvValue (v : Option String) : String :=
  match v with
  | none => ""
  | some s =>
    if s.toList.any (fun c => c = '"' ∨ c = ',' ∨ c = '\n') then
      "\"" ++ String.mk ((s.toList.map (fun c => if c = Char.ofNat 34 then [c, c] else [c])).flatten) ++ "\""
    else s

/-- The storage descriptor handed to `storage.getDownloadUrl`
(`StoredReceipt` in `lib/receiptStorage.ts`). -/
structure StoredReceipt where
  storageProvider : String
  storageBucket : Option String
  storageKey : String
  storageUrl : Option String
deriving DecidableEq, Repr

def ReceiptRow.storedDesc (rc : ReceiptRow) : StoredReceipt :=
  { storageProvider := rc.storageProvider
    storageBucket := rc.storageBucket
    storageKey := rc.storageKey
    storageUrl := rc.storageUrl }

/-- A `getDownloadUrl` implementation, as observed by the export route:
it can resolve to a URL, resolve to `undefined` (`Except.ok none`), or
reject (`Except.error`, e.g. a provider/network failure). -/
def UrlIssuer := StoredReceipt → Except Unit (Option String)

/-- One `receipts.csv` data row; the last field is
`downloadUrl ?? receipt.storageUrl ?? ''`. -/
def receiptCsvRow (rc : ReceiptRow) (downloadUrl : Option String) : String :=
  String.intercalate ","
    [ csvValue (some rc.reportId)
    , csvValue (some (toString rc.id))
    , csvValue rc.clientExpenseId
    , csvValue (rc.expenseId.map toString)
    , csvValue (some rc.fileName)
    , csvValue (some rc.contentType)
    , csvValue (some (toString rc.fileSize))
    , csvValue (some rc.storageProvider)
    , csvValue (some (rc.storageBucket.getD ""))
    , csvValue (some rc.storageKey)
    , csvValue (some (downloadUrl.getD (rc.storageUrl.getD ""))) ]

/-- One `expenses.csv` data row (fields present in this model). -/
def expenseCsvRow (e0 : ExpenseRow) : String :=
  String.intercalate ","
    [ csvValue (some e0.reportId)
    , csvValue (some (toString e0.id))
    , csvValue (some (e0.externalId.getD ""))
    , csvValue (some e0.category)
    , csvValue (some e0.amount)
    , csvValue (some e0.currency) ]

/-- One `reports.csv` data row (fields present in this model, with both
stages' decision audit fields). -/
def reportCsvRow (r : ReportRow) (mgr fin : Option ApprovalRow) : String :=
  String.intercalate ","
    [ csvValue (some r.reportId)
    , csvValue (some (toLowerString r.employeeEmail))
    , csvValue (some (toString r.finalizedAt))
    , csvValue (some r.status.label)
    , csvValue (some r.managerEmail)
    , csvValue (some ((mgr.map (fun a => a.status.label)).getD ""))
    , csvValue (some ((mgr.bind (fun a => a.decidedBy)).getD ""))
    , csvValue (some ((mgr.bind (fun a => a.decidedAt.map toString)).getD ""))
    , csvValue (some ((mgr.bind (fun a => a.note)).getD ""))
    , csvValue (some ((fin.map (fun a => a.status.label)).getD ""))
    , csvValue (some ((fin.bind (fun a => a.decidedBy)).getD ""))
    , csvValue (some ((fin.bind (fun a => a.decidedAt.map toString)).getD ""))
    , csvValue (some ((fin.bind (fun a => a.note)).getD "")) ]

/-- Reports eligible for export: `finalizedAt` in the requested range,
status `FINANCE_APPROVED`, optional employee filter. -/
def eligibleReports (db : Db) (start stop : Nat)
    (employees : Option (List String)) : List ReportRow :=
  db.reports.filter (fun r =>
    decide (start ≤ r.finalizedAt) && decide (r.finalizedAt ≤ stop) &&
      decide (r.status = .FINANCE_APPROVED) &&
      (match employees with
       | none => true
       | some es => es.contains r.employeeEmail))

/-- The per-report row triple `(report row, expense rows, receipt rows)`;
the receipt rows call the URL issuer per receipt, and a rejected call
propagates as `Except.error` (the route `await`s inside its outer
`try`/`catch`, so a rejection aborts the whole export). -/
def exportRowsForReport (issue : UrlIssuer) (db : Db) (r : ReportRow) :
    Except Unit (String × List String × List String) :=
  let es := db.expenses.filter (fun e0 => e0.reportId = r.reportId)
  let rcs := db.receipts.filter (fun rc => rc.reportId = r.reportId)
  let mgr := db.approvals.find? (fun a => a.reportId = r.reportId ∧ a.stage = .MANAGER)
  let fin := db.approvals.find? (fun a => a.reportId = r.reportId ∧ a.stage = .FINANCE)
  (rcs.mapM (fun rc => (issue rc.storedDesc).map (receiptCsvRow rc))).map
    (fun rlines => (reportCsvRow r mgr fin, es.map expenseCsvRow, rlines))

/-- Shallow embedding of the export generator in `adminReports.ts`: the
three CSV tables (each with a header line) for the requested range.  An
`Except.error` models the outer `catch (error) { return next(error); }`,
i.e. the export failing as a whole. -/
def exportArchive (issue : UrlIssuer) (db : Db) (start stop : Nat)
    (employees : Option (List String)) :
    Except Unit (List String × List String × List String) :=
  ((eligibleReports db start stop employees).mapM
      (exportRowsForReport issue db)).map
    (fun rows =>
      ( "report_header" :: rows.map (fun t => t.1)
      , "expense_header" :: (rows.map (fun t => t.2.1)).flatten
      , "receipt_header" :: (rows.map (fun t => t.2.2)).flatten ))

/-- The URL actually used for a receipt row when the issuer call does
not throw (`undefined` stays `undefined`). -/
def issuedUrl (e : Except Unit (Option String)) : Option String :=
  match e with
  | .ok u => u
  | .error _ => none

/-! ### The client Draft Store
(`storage.js`: IndexedDB object store `receipts`, keyPath `id`, index
`draftExpense` on `[draftId, expenseId]`).  IndexedDB compares string
keys by UTF-16 code unit order; `clearReceiptsForDraft` and
`listReceiptMetadataForDraft` use the key range
`bound([draftId, ''], [draftId, '￿'])`. -/

/-- UTF-16 code units of one character (surrogate pair for
supplementary-plane code points). -/
def utf16Units (c : Char) : List Nat :=
  if c.val.toNat < 0x10000 then [c.val.toNat]
  else
    [ 0xD800 + (c.val.toNat - 0x10000) / 0x400
    , 0xDC00 + (c.val.toNat - 0x10000) % 0x400 ]

/-- UTF-16 code units of a string (the representation IndexedDB and
JavaScript compare by). -/
def utf16 (s : String) : List Nat :=
  (s.toList.map utf16Units).flatten

/-- Strict lexicographic order on code-unit lists. -/
def unitsLt : List Nat → List Nat → Bool
  | [], [] => false
  | [], _ :: _ => true
  | _ :: _, [] => false
  | a :: as, b :: bs =>
    if a < b then true else if b < a then false else unitsLt as bs

/-- JavaScript / IndexedDB string order: `a ≤ b` in UTF-16 code-unit
lexicographic order. -/
def jsLe (a b : String) : Bool := ¬ unitsLt (utf16 b) (utf16 a)

/-- The upper bound string `'￿'` used by the draft-wide key range. -/
def uffff : String := String.mk [Char.ofNat 0xFFFF]

/-- One record of the `receipts` object store: metadata plus the blob
(bytes). -/
structure ReceiptRecord where
  id : String
  draftId : String
  expenseId : String
  fileName : String
  fileSize : Nat
  contentType : String
  lastModified : Nat
  blob : List Nat
deriving DecidableEq, Repr

/-- The object store contents, in insertion order.  `keyPath: 'id'`
makes `id` the (unique) primary key. -/
abbrev DraftStore := List ReceiptRecord

/-- The metadata view (`normalizeMetadata` in `storage.js`). -/
structure ReceiptMeta where
  id : String
  draftId : String
  expenseId : String
  fileName : String
  fileSize : Nat
  contentType : String
  lastModified : Nat
deriving DecidableEq, Repr

def normalizeMetadata (r : ReceiptRecord) : ReceiptMeta :=
  { id := r.id, draftId := r.draftId, expenseId := r.expenseId
    fileName := r.fileName, fileSize := r.fileSize
    contentType := r.contentType, lastModified := r.lastModified }

/-- `store.put`: replace the record with the same primary key, else
append. -/
def idbPut (s : DraftStore) (r : ReceiptRecord) : DraftStore :=
  if s.any (fun x => x.id = r.id) then
    s.map (fun x => if x.id = r.id then r else x)
  else s ++ [r]

/-- `store.delete(id)`. -/
def idbDelete (s : DraftStore) (id : String) : DraftStore :=
  s.filter (fun x => x.id ≠ id)

/-- Membership in the index range `IDBKeyRange.only([draftId, expenseId])`. -/
def keyMatches (d e : String) (r : ReceiptRecord) : Bool :=
  r.draftId = d && r.expenseId = e

/-- Membership in the draft-wide index range
`IDBKeyRange.bound([draftId, ''], [draftId, '￿'])` (array keys
compare elementwise, so this pins `draftId` exactly and bounds
`expenseId` by UTF-16 order; the lower bound `''` admits every string). -/
def draftRangeMatches (d : String) (r : ReceiptRecord) : Bool :=
  r.draftId = d && jsLe r.expenseId uffff

/-- A file handed to `saveReceiptsForExpense`. -/
structure FileInput where
  fileName : String
  fileSize : Nat
  contentType : String
  lastModified : Nat
  blob : List Nat
deriving DecidableEq, Repr

/-- `buildMetadataRecord` plus the `blob` field, as stored by the
IndexedDB branch of `saveReceiptsForExpense` (`{ ...meta, blob: file }`);
`id` is a freshly generated `uuid()`. -/
def buildRecord (d e : String) (f : FileInput) (id : String) : ReceiptRecord :=
  { id := id, draftId := d, expenseId := e
    fileName := f.fileName, fileSize := f.fileSize
    contentType := f.contentType, lastModified := f.lastModified
    blob := f.blob }

inductive StoreError where
  | missingDraft
  | missingExpense
deriving DecidableEq, Repr

/-- `ensureDraftAndExpense`: both identifiers must be truthy. -/
def ensureDraftAndExpense (d e : String) : Except StoreError Unit :=
  if d = "" then .error .missingDraft
  else if e = "" then .error .missingExpense
  else .ok ()

/-- `saveReceiptsForExpense` (IndexedDB branch): an empty file list
returns `[]` before touching the store; otherwise the prior generation
for `[draftId, expenseId]` is deleted and the new records are put, all
in one transaction.  `ids` supplies the `uuid()` values, one per file. -/
def saveReceiptsForExpense (s : DraftStore) (d e : String)
    (files : List FileInput) (ids : List String) :
    Except StoreError (List ReceiptMeta × DraftStore) := do
  (ensureDraftAndExpense d e).map (fun _ => ())
  if files.isEmpty then
    return ([], s)
  else
    let keys := (s.filter (keyMatches d e)).map (fun r => r.id)
    let s1 := keys.foldl idbDelete s
    let records := List.zipWith (buildRecord d e) files ids
    let s2 := records.foldl idbPut s1
    return (records.map normalizeMetadata, s2)

/-- The `ids` normalization shared by `getStoredReceipts` and
`deleteReceipts`: `Array.isArray(receiptIds) && receiptIds.length ?
receiptIds : null`. -/
def normalizeIds (receiptIds : Option (List String)) : Option (List String) :=
  match receiptIds with
  | none => none
  | some l => if l.isEmpty then none else some l

/-- `getStoredReceipts` (IndexedDB branch): the records under
`[draftId, expenseId]`, optionally filtered to the requested ids, with
metadata and blob. -/
def getStoredReceipts (s : DraftStore) (d e : String)
    (receiptIds : Option (List String)) :
    Except StoreError (List (ReceiptMeta × List Nat)) := do
  (ensureDraftAndExpense d e).map (fun _ => ())
  let ids := normalizeIds receiptIds
  let records := s.filter (keyMatches d e)
  return (records.filter (fun r =>
      match ids with
      | some l => l.contains r.id
      | none => true)).map (fun r => (normalizeMetadata r, r.blob))

/-- `deleteReceipts` (IndexedDB branch): with explicit ids, delete those
primary keys; otherwise delete every record under
`[draftId, expenseId]`. -/
def deleteReceipts (s : DraftStore) (d e : String)
    (receiptIds : Option (List String)) : Except StoreError DraftStore := do
  (ensureDraftAndExpense d e).map (fun _ => ())
  match normalizeIds receiptIds with
  | some l => return l.foldl idbDelete s
  | none =>
    let keys := (s.filter (keyMatches d e)).map (fun r => r.id)
    return keys.foldl idbDelete s

/-- `clearReceiptsForDraft` (IndexedDB branch): delete every key in
`bound([draftId, ''], [draftId, '￿'])`; a falsy `draftId` returns
without touching the store. -/
def clearReceiptsForDraft (s : DraftStore) (d : String) : DraftStore :=
  if d = "" then s
  else
    let keys := (s.filter (draftRangeMatches d)).map (fun r => r.id)
    keys.foldl idbDelete s

/-! ### The client submission flow (`apps/expenses/src/main.js`:
`uploadReceiptsForExpense`, `uploadPendingReceipts`, `finalizeSubmit`).

`pendingReceiptFiles` maps a client expense id to the staged metadata
(ids into the Draft Store).  Each expense's upload POSTs the staged
blobs to `/api/receipts` (which durably creates `receipts` rows keyed by
`(reportId, clientExpenseId)`), and only on success deletes the staged
entries from the Draft Store.  `uploadPendingReceipts` starts every
upload and `finalizeSubmit` aborts — without POSTing the report — if any
of them failed; uploads already started run to completion either way, so
the eventual state is the one modelled by running each upload fully. -/

/-- Client-side state relevant to finalize: the draft id, the expenses
in `state.expenses` order, the `pendingReceiptFiles` map (expense id to
staged receipt ids) and the Draft Store. -/
structure ClientState where
  draftId : String
  expenseIds : List String
  pending : List (String × List String)
  draftStore : DraftStore
deriving DecidableEq, Repr

def pendingIdsFor (cs : ClientState) (eid : String) : List String :=
  ((cs.pending.find? (fun p => p.1 = eid)).map (fun p => p.2)).getD []

/-- The `receipts` row created by the upload route for one staged blob
(`receipts.ts` with the in-memory provider; the object key is
collision-resistant, modelled from the record id). -/
def serverReceiptFor (reportId eid : String) (rid : Nat)
    (r : ReceiptRecord) : ReceiptRow :=
  { id := rid
    reportId := reportId
    clientExpenseId := some eid
    expenseId := none
    fileName := r.fileName
    contentType := r.contentType
    fileSize := r.fileSize
    storageProvider := "memory"
    storageBucket := some "memory"
    storageKey := reportId ++ "/" ++ eid ++ "/" ++ r.id
    storageUrl := some ("memory://" ++ reportId ++ "/" ++ eid ++ "/" ++ r.id) }

/-- Shallow embedding of `uploadReceiptsForExpense` for one expense.
`uploadOk eid` is the network/server oracle for the POST.  Returns
whether the upload succeeded together with the durable store and client
state afterwards.  A throw (stored receipts missing, or a failed POST)
leaves both untouched; a success appends the created `receipts` rows and
deletes the staged entries from the Draft Store
(`deleteReceipts(draftId, expense.id, ids)`). -/
def uploadReceiptsForExpense (uploadOk : String → Bool) (reportId : String)
    (db : Db) (cs : ClientState) (eid : String) :
    Bool × Db × ClientState :=
  let ids := pendingIdsFor cs eid
  if ids.isEmpty then (true, db, cs)
  else
    let stored :=
      (cs.draftStore.filter (keyMatches cs.draftId eid)).filter
        (fun r => ids.contains r.id)
    if stored.isEmpty then (false, db, cs)
    else if uploadOk eid then
      let newRows := stored.enum.map
        (fun ir => serverReceiptFor reportId eid (db.nextReceiptId + ir.1) ir.2)
      let db' := { db with
        receipts := db.receipts ++ newRows
        nextReceiptId := db.nextReceiptId + stored.length }
      let cs' := { cs with
        pending := cs.pending.filter (fun p => p.1 ≠ eid)
        draftStore := ids.foldl idbDelete cs.draftStore }
      (true, db', cs')
    else (false, db, cs)

/-- `uploadPendingReceipts`: every expense with staged files is
uploaded; the flag records whether all of them succeeded. -/
def uploadPendingReceipts (uploadOk : String → Bool) (reportId : String)
    (db : Db) (cs : ClientState) : Bool × Db × ClientState :=
  cs.expenseIds.foldl
    (fun acc eid =>
      let step := uploadReceiptsForExpense uploadOk reportId acc.2.1 acc.2.2 eid
      (acc.1 && step.1, step.2))
    (true, db, cs)

/-- Shallow embedding of the online `finalizeSubmit` path after its
client-side gates (duplicate-history, missing draft id, missing API key)
have passed: upload the staged receipts first, and POST the report (the
submission transaction of `reports.ts`) only if every upload succeeded.
The returned flag is whether the report POST was attempted. -/
def finalizeSubmit (uploadOk : String → Bool) (p : ReportPayload)
    (db : Db) (cs : ClientState) : Bool × Db × ClientState :=
  let up := uploadPendingReceipts uploadOk p.reportId db cs
  if up.1 then
    (true, applySubmit up.2.1 p, up.2.2)
  else
    (false, up.2.1, up.2.2)

/-- Well-formedness of the client state as `main.js` maintains it: every
id in the `pendingReceiptFiles` entry of an expense refers (when present
in the Draft Store) to a record staged for this draft and this expense —
the pending metadata is exactly what `saveReceiptsForExpense` returned
for `(draftId, expense.id)`. -/
def ClientState.wf (cs : ClientState) : Prop :=
  ∀ pe ∈ cs.pending, ∀ i ∈ pe.2, ∀ r ∈ cs.draftStore, r.id = i →
    r.draftId = cs.draftId ∧ r.expenseId = pe.1

/-! ### Theorems: the approval state machine (C2, C3, C4) -/

/-- C2: a MANAGER-stage decision whose preconditions hold (permitted
role, valid note, MANAGER approval still `PENDING`) records the manager
decision, resets the FINANCE approval row to `PENDING` with
decidedBy/decidedAt/note cleared — whatever its previous contents — and
sets `Report.status` to `MANAGER_APPROVED` on approve or `REJECTED` on
reject. -/
theorem manager_decision_resets_finance (role : AdminRole) (r : ReportState)
    (action : DecisionAction) (actor : String) (now : Nat) (note : Option String)
    (hrole : canActOnStage role .MANAGER = true)
    (hnote : (note.map (fun s => (trimString s).length)).getD 0 ≤ 1000)
    (hpending : r.manager.status = .PENDING) :
    decideStage role r .MANAGER action actor now note =
      .ok { status := if action = .approve then .MANAGER_APPROVED else .REJECTED
            manager :=
              { status := if action = .approve then .APPROVED else .REJECTED
                decidedBy := some actor
                decidedAt := some now
                note := normalizeNote note }
            finance :=
              { status := .PENDING, decidedBy := none
                decidedAt := none, note := none } } := by
  unfold decideStage
  rw [if_neg (by omega), if_neg (by simp [hrole])]
  simp only [ReportState.approvalOf, hpending]
  cases action <;> simp

/-- C2 witness: a concrete MANAGER approval where the FINANCE row had
already been decided. -/
theorem manager_decision_resets_finance_witness :
    decideStage .MANAGER
      { status := .SUBMITTED
        manager := { status := .PENDING, decidedBy := none, decidedAt := none, note := none }
        finance := { status := .APPROVED, decidedBy := some "cfo", decidedAt := some 7, note := some "ok" } }
      .MANAGER .approve "mgr" 42 none =
      .ok { status := .MANAGER_APPROVED
            manager := { status := .APPROVED, decidedBy := some "mgr", decidedAt := some 42, note := none }
            finance := { status := .PENDING, decidedBy := none, decidedAt := none, note := none } } := by
  have h := manager_decision_resets_finance .MANAGER
    { status := .SUBMITTED
      manager := { status := .PENDING, decidedBy := none, decidedAt := none, note := none }
      finance := { status := .APPROVED, decidedBy := some "cfo", decidedAt := some 7, note := some "ok" } }
    .approve "mgr" 42 none (by decide) (by decide) (by decide)
  simpa [normalizeNote] using h

/-- C3: a FINANCE-stage decision attempted while the MANAGER approval is
not `APPROVED` fails with a conflict (either "already decided" when the
FINANCE row is not `PENDING`, or "manager approval required"), and the
durable state is unchanged. -/
theorem finance_before_manager_conflicts (role : AdminRole) (r : ReportState)
    (action : DecisionAction) (actor : String) (now : Nat) (note : Option String)
    (hrole : canActOnStage role .FINANCE = true)
    (hnote : (note.map (fun s => (trimString s).length)).getD 0 ≤ 1000)
    (hmgr : r.manager.status ≠ .APPROVED) :
    (∃ e, decideStage role r .FINANCE action actor now note = .error e ∧
        e.isConflict = true) ∧
      applyDecision role r .FINANCE action actor now note = r := by
  have hstep : ∃ e, decideStage role r .FINANCE action actor now note = .error e ∧
      e.isConflict = true := by
    unfold decideStage
    rw [if_neg (by omega), if_neg (by simp [hrole])]
    by_cases hfin : r.finance.status = .PENDING
    · refine ⟨.managerRequired, ?_, rfl⟩
      simp [ReportState.approvalOf, hfin, hmgr]
    · refine ⟨.alreadyDecided, ?_, rfl⟩
      simp [ReportState.approvalOf, hfin]
  refine ⟨hstep, ?_⟩
  obtain ⟨e, he, -⟩ := hstep
  simp [applyDecision, he]

/-- C3 witness: a FINANCE approval attempted on a freshly submitted
report (manager still pending). -/
theorem finance_before_manager_conflicts_witness :
    (∃ e, decideStage .CFO
        { status := .SUBMITTED
          manager := { status := .PENDING, decidedBy := none, decidedAt := none, note := none }
          finance := { status := .PENDING, decidedBy := none, decidedAt := none, note := none } }
        .FINANCE .approve "cfo" 99 none = .error e ∧ e.isConflict = true) ∧
      applyDecision .CFO
        { status := .SUBMITTED
          manager := { status := .PENDING, decidedBy := none, decidedAt := none, note := none }
          finance := { status := .PENDING, decidedBy := none, decidedAt := none, note := none } }
        .FINANCE .approve "cfo" 99 none =
        { status := .SUBMITTED
          manager := { status := .PENDING, decidedBy := none, decidedAt := none, note := none }
          finance := { status := .PENDING, decidedBy := none, decidedAt := none, note := none } } :=
  finance_before_manager_conflicts .CFO _ .approve "cfo" 99 none
    (by decide) (by decide) (by decide)

/-- C4: a decision on a stage whose approval row is no longer `PENDING`
fails with the "already decided" conflict and leaves the durable state
unchanged, so each stage is decided at most once per round. -/
theorem stage_decided_once (role : AdminRole) (r : ReportState)
    (stage : ApprovalStage) (action : DecisionAction) (actor : String)
    (now : Nat) (note : Option String)
    (hrole : canActOnStage role stage = true)
    (hnote : (note.map (fun s => (trimString s).length)).getD 0 ≤ 1000)
    (hdecided : (r.approvalOf stage).status ≠ .PENDING) :
    decideStage role r stage action actor now note = .error .alreadyDecided ∧
      applyDecision role r stage action actor now note = r := by
  have hstep : decideStage role r stage action actor now note = .error .alreadyDecided := by
    unfold decideStage
    rw [if_neg (by omega), if_neg (by simp [hrole])]
    simp [hdecided]
  exact ⟨hstep, by simp [applyDecision, hstep]⟩

/-- C4 witness: a second MANAGER decision on an already manager-approved
report. -/
theorem stage_decided_once_witness :
    decideStage .SUPER
      { status := .MANAGER_APPROVED
        manager := { status := .APPROVED, decidedBy := some "mgr", decidedAt := some 1, note := none }
        finance := { status := .PENDING, decidedBy := none, decidedAt := none, note := none } }
      .MANAGER .reject "boss" 5 none = .error .alreadyDecided ∧
      applyDecision .SUPER
        { status := .MANAGER_APPROVED
          manager := { status := .APPROVED, decidedBy := some "mgr", decidedAt := some 1, note := none }
          finance := { status := .PENDING, decidedBy := none, decidedAt := none, note := none } }
        .MANAGER .reject "boss" 5 none =
        { status := .MANAGER_APPROVED
          manager := { status := .APPROVED, decidedBy := some "mgr", decidedAt := some 1, note := none }
          finance := { status := .PENDING, decidedBy := none, decidedAt := none, note := none } } :=
  stage_decided_once .SUPER _ .MANAGER .reject "boss" 5 none
    (by decide) (by decide) (by decide)

/-! ### Theorems: submission idempotency (C5) -/

/-- C5: submitting a payload whose `reportId` already names a stored
report fails with the duplicate conflict (`P2002` mapped to 409
`REPORT_EXISTS`), and the transaction rollback leaves every durable row
— the first report, its expenses, approvals and receipts — unchanged. -/
theorem duplicate_report_conflicts (db : Db) (p : ReportPayload)
    (hvalid : toLowerString (trimString (p.headerManagerEmail.getD "")) ≠ "")
    (hdup : db.reports.any (fun r => r.reportId = p.reportId) = true) :
    submitReport db p = .error .duplicate ∧ applySubmit db p = db := by
  have hstep : submitReport db p = .error .duplicate := by
    unfold submitReport
    rw [if_neg hvalid, if_pos hdup]
  exact ⟨hstep, by simp [applySubmit, hstep]⟩

/-- C5 witness: resubmitting `r1` after a successful first submission. -/
theorem duplicate_report_conflicts_witness :
    submitReport
      { reports := [{ reportId := "r1", employeeEmail := "a@b.c", finalizedAt := 3,
                      managerEmail := "m@b.c", status := .SUBMITTED }]
        expenses := [], approvals := [], receipts := []
        nextExpenseId := 1, nextReceiptId := 0 }
      { reportId := "r1", employeeEmail := "a@b.c", finalizedAt := 9,
        headerManagerEmail := some "M@b.c", expenses := [] } = .error .duplicate ∧
      applySubmit
        { reports := [{ reportId := "r1", employeeEmail := "a@b.c", finalizedAt := 3,
                        managerEmail := "m@b.c", status := .SUBMITTED }]
          expenses := [], approvals := [], receipts := []
          nextExpenseId := 1, nextReceiptId := 0 }
        { reportId := "r1", employeeEmail := "a@b.c", finalizedAt := 9,
          headerManagerEmail := some "M@b.c", expenses := [] } =
        { reports := [{ reportId := "r1", employeeEmail := "a@b.c", finalizedAt := 3,
                        managerEmail := "m@b.c", status := .SUBMITTED }]
          expenses := [], approvals := [], receipts := []
          nextExpenseId := 1, nextReceiptId := 0 } :=
  duplicate_report_conflicts _ _ (by decide) (by decide)

/-! ### Draft Store lemmas -/

theorem foldl_idbDelete_eq_filter (keys : List String) (s : DraftStore) :
    keys.foldl idbDelete s = s.filter (fun r => decide (r.id ∉ keys)) := by
  induction keys generalizing s with
  | nil => simp
  | cons k ks ih =>
    simp only [List.foldl_cons]
    rw [ih (idbDelete s k)]
    unfold idbDelete
    rw [List.filter_filter]
    apply List.filter_congr
    intro r _
    by_cases h1 : r.id = k <;> by_cases h2 : r.id ∈ ks <;>
      simp [h1, h2, List.mem_cons]

theorem idbPut_fresh (s : DraftStore) (r : ReceiptRecord)
    (h : s.any (fun x => x.id = r.id) = false) : idbPut s r = s ++ [r] := by
  unfold idbPut
  rw [if_neg (by simp [h])]

theorem foldl_idbPut_fresh (records : List ReceiptRecord) (s : DraftStore)
    (h : ∀ r ∈ records, ∀ x ∈ s, x.id ≠ r.id)
    (hnd : (records.map (fun r => r.id)).Nodup) :
    records.foldl idbPut s = s ++ records := by
  induction records generalizing s with
  | nil => simp
  | cons r rs ih =>
    simp only [List.foldl_cons]
    have hfresh : s.any (fun x => x.id = r.id) = false := by
      rw [List.any_eq_false]
      intro x hx
      simpa using h r (by simp) x hx
    rw [idbPut_fresh s r hfresh]
    rw [ih (s ++ [r]) ?_ ?_]
    · simp
    · intro r' hr' x hx
      rcases List.mem_append.mp hx with hx | hx
      · exact h r' (by simp [hr']) x hx
      · simp only [List.mem_singleton] at hx
        subst hx
        simp only [List.map_cons, List.nodup_cons] at hnd
        intro hcontra
        exact hnd.1 (hcontra ▸ List.mem_map_of_mem (fun r0 => r0.id) hr')
    · simp only [List.map_cons, List.nodup_cons] at hnd
      exact hnd.2

theorem mem_idbPut {x : ReceiptRecord} {s : DraftStore} {r : ReceiptRecord}
    (hx : x ∈ idbPut s r) : x ∈ s ∨ x = r := by
  unfold idbPut at hx
  split at hx
  · rcases List.mem_map.mp hx with ⟨y, hy, hxy⟩
    by_cases h : y.id = r.id
    · right
      simp only [h, if_pos] at hxy
      exact hxy.symm
    · left
      simp only [h, if_neg, ite_false] at hxy
      exact hxy ▸ hy
  · rcases List.mem_append.mp hx with h | h
    · exact Or.inl h
    · right
      simpa using h

theorem mem_foldl_idbPut {x : ReceiptRecord} (records : List ReceiptRecord)
    (s : DraftStore) (hx : x ∈ records.foldl idbPut s) : x ∈ s ∨ x ∈ records := by
  induction records generalizing s with
  | nil => exact Or.inl hx
  | cons r rs ih =>
    simp only [List.foldl_cons] at hx
    rcases ih (idbPut s r) hx with h | h
    · rcases mem_idbPut h with h | h
      · exact Or.inl h
      · exact Or.inr (by simp [h])
    · exact Or.inr (by simp [h])

/-! ### Theorems: Draft Store (C10, C9) -/

/-- C10: saving an empty file list for a valid `(draftId, expenseId)`
pair returns an empty metadata list and leaves the stored state
untouched, while a non-empty save removes the entire prior generation
for that pair first: every `(draftId, expenseId)` record of the result
of a non-empty save is one of the newly written records. -/
theorem saveReceipts_empty_list_noop (s : DraftStore) (d e : String)
    (ids : List String) (files : List FileInput) (fids : List String)
    (out : List ReceiptMeta × DraftStore) (x : ReceiptRecord)
    (hd : d ≠ "") (he : e ≠ "") (hne : files ≠ [])
    (hout : saveReceiptsForExpense s d e files fids = .ok out)
    (hx : x ∈ out.2) (hkey : keyMatches d e x = true) :
    saveReceiptsForExpense s d e [] ids = .ok ([], s) ∧
      x ∈ List.zipWith (buildRecord d e) files fids := by
  constructor
  · simp [saveReceiptsForExpense, ensureDraftAndExpense, hd, he, Except.map]
  · unfold saveReceiptsForExpense at hout
    simp only [ensureDraftAndExpense, hd, he, if_neg, ite_false, Except.map,
      List.isEmpty_eq_true, hne, bind, Except.bind, pure, Except.pure] at hout
    rw [Except.ok.injEq] at hout
    rw [← hout] at hx
    simp only at hx
    rcases mem_foldl_idbPut _ _ hx with h | h
    · exfalso
      rw [foldl_idbDelete_eq_filter] at h
      have hmem := List.mem_filter.mp h
      have hid : x.id ∈ (s.filter (keyMatches d e)).map (fun r => r.id) :=
        List.mem_map_of_mem (fun r => r.id)
          (List.mem_filter.mpr ⟨hmem.1, hkey⟩)
      have h2 := hmem.2
      simp only [decide_eq_true_eq] at h2
      exact h2 hid
    · exact h

/-- C10 witness: a concrete empty-list save is a no-op while the
non-empty save replaces the prior generation. -/
theorem saveReceipts_empty_list_noop_witness :
    saveReceiptsForExpense
        [{ id := "old", draftId := "d1", expenseId := "e1", fileName := "a.pdf",
           fileSize := 3, contentType := "application/pdf", lastModified := 1,
           blob := [1, 2, 3] }]
        "d1" "e1" []  ["n1"] =
      .ok ([],
        [{ id := "old", draftId := "d1", expenseId := "e1", fileName := "a.pdf",
           fileSize := 3, contentType := "application/pdf", lastModified := 1,
           blob := [1, 2, 3] }]) ∧
      buildRecord "d1" "e1"
          { fileName := "b.pdf", fileSize := 1, contentType := "application/pdf",
            lastModified := 2, blob := [9] } "n1" ∈
        List.zipWith (buildRecord "d1" "e1")
          [{ fileName := "b.pdf", fileSize := 1, contentType := "application/pdf",
             lastModified := 2, blob := [9] }] ["n1"] :=
  saveReceipts_empty_list_noop
    [{ id := "old", draftId := "d1", expenseId := "e1", fileName := "a.pdf",
       fileSize := 3, contentType := "application/pdf", lastModified := 1,
       blob := [1, 2, 3] }]
    "d1" "e1" ["n1"]
    [{ fileName := "b.pdf", fileSize := 1, contentType := "application/pdf",
       lastModified := 2, blob := [9] }] ["n1"]
    ([{ id := "n1", draftId := "d1", expenseId := "e1", fileName := "b.pdf",
        fileSize := 1, contentType := "application/pdf", lastModified := 2 }],
      [{ id := "n1", draftId := "d1", expenseId := "e1", fileName := "b.pdf",
         fileSize := 1, contentType := "application/pdf", lastModified := 2,
         blob := [9] }])
    (buildRecord "d1" "e1"
      { fileName := "b.pdf", fileSize := 1, contentType := "application/pdf",
        lastModified := 2, blob := [9] } "n1")
    (by decide) (by decide) (by decide) (by rfl) (by decide) (by decide)

theorem mem_zipWith_buildRecord {d e : String} {files : List FileInput}
    {ids : List String} {rec : ReceiptRecord}
    (h : rec ∈ List.zipWith (buildRecord d e) files ids) :
    rec.draftId = d ∧ rec.expenseId = e ∧ rec.id ∈ ids := by
  induction files generalizing ids with
  | nil => simp at h
  | cons f fs ih =>
    cases ids with
    | nil => simp at h
    | cons i is =>
      simp only [List.zipWith_cons_cons, List.mem_cons] at h
      rcases h with h | h
      · subst h
        exact ⟨rfl, rfl, by simp [buildRecord]⟩
      · obtain ⟨h1, h2, h3⟩ := ih h
        exact ⟨h1, h2, by simp [h3]⟩

theorem map_id_zipWith_buildRecord (d e : String) (files : List FileInput)
    (ids : List String) (hlen : ids.length = files.length) :
    (List.zipWith (buildRecord d e) files ids).map (fun r => r.id) = ids := by
  induction files generalizing ids with
  | nil =>
    cases ids with
    | nil => simp
    | cons i is => simp at hlen
  | cons f fs ih =>
    cases ids with
    | nil => simp at hlen
    | cons i is =>
      simp only [List.zipWith_cons_cons, List.map_cons, List.cons.injEq]
      exact ⟨rfl, ih is (by simpa using hlen)⟩

theorem map_blob_zipWith_buildRecord (d e : String) (files : List FileInput)
    (ids : List String) (hlen : ids.length = files.length) :
    (List.zipWith (buildRecord d e) files ids).map (fun r => r.blob) =
      files.map (fun f => f.blob) := by
  induction files generalizing ids with
  | nil => simp
  | cons f fs ih =>
    cases ids with
    | nil => simp at hlen
    | cons i is =>
      simp only [List.zipWith_cons_cons, List.map_cons, List.cons.injEq]
      exact ⟨rfl, ih is (by simpa using hlen)⟩

/-- C9 (amended): the Draft Store round-trip properties, for an
expense identifier within the draft-wide key-range bound
(`jsLe e' uffff`): (1) the bytes saved for `(d, e)` are byte-identical
when retrieved for `(d, e)`; (2) deleting one stored receipt id leaves
every other stored receipt retrievable unchanged; (3) clearing the
draft leaves zero retrievable receipts for expense identifiers within
the bound — a receipt whose expenseId exceeds `'￿'` in UTF-16 order
survives clearing (see the counterexample). -/
theorem draft_store_roundtrip
    (s : DraftStore) (d e : String) (files : List FileInput) (ids : List String)
    (meta : List ReceiptMeta) (s' : DraftStore)
    (x : String) (r : ReceiptRecord) (s'' : DraftStore) (e' : String)
    (hd : d ≠ "") (he : e ≠ "") (hne : files ≠ [])
    (hids : ids.Nodup) (hlen : ids.length = files.length)
    (hfresh : ∀ i ∈ ids, ∀ r0 ∈ s, r0.id ≠ i)
    (hsave : saveReceiptsForExpense s d e files ids = .ok (meta, s'))
    (hdel : deleteReceipts s' d e (some [x]) = .ok s'')
    (hr : r ∈ s') (hrx : r.id ≠ x) (hrd : r.draftId ≠ "") (hre : r.expenseId ≠ "")
    (he' : e' ≠ "") (hle : jsLe e' uffff = true) :
    getStoredReceipts s' d e none =
        .ok ((List.zipWith (buildRecord d e) files ids).map
          (fun rec => (normalizeMetadata rec, rec.blob))) ∧
      (List.zipWith (buildRecord d e) files ids).map (fun rec => rec.blob) =
        files.map (fun f => f.blob) ∧
      (∃ l, getStoredReceipts s'' r.draftId r.expenseId none = .ok l ∧
        (normalizeMetadata r, r.blob) ∈ l) ∧
      getStoredReceipts (clearReceiptsForDraft s' d) d e' none = .ok [] := by
  -- Invert the save.
  unfold saveReceiptsForExpense at hsave
  simp only [ensureDraftAndExpense, hd, he, if_neg, ite_false, Except.map,
    List.isEmpty_eq_true, hne, bind, Except.bind, pure, Except.pure] at hsave
  rw [Except.ok.injEq, Prod.mk.injEq] at hsave
  set records := List.zipWith (buildRecord d e) files ids with hrecords
  have hkeysub : ∀ rec ∈ records, rec.draftId = d ∧ rec.expenseId = e ∧ rec.id ∈ ids :=
    fun rec hrec => mem_zipWith_buildRecord hrec
  set keys := (s.filter (keyMatches d e)).map (fun r0 => r0.id) with hkeys
  have hs1 : keys.foldl idbDelete s = s.filter (fun r0 => decide (r0.id ∉ keys)) :=
    foldl_idbDelete_eq_filter keys s
  have hs' : s' = s.filter (fun r0 => decide (r0.id ∉ keys)) ++ records := by
    rw [← hsave.2, hs1]
    apply foldl_idbPut_fresh
    · intro rec hrec x0 hx0
      have hx0s := (List.mem_filter.mp hx0).1
      exact hfresh rec.id (hkeysub rec hrec).2.2 x0 hx0s
    · rw [hrecords, map_id_zipWith_buildRecord d e files ids hlen]
      exact hids
  -- The `(d, e)` records of `s'` are exactly the newly written records.
  have hfilter : s'.filter (keyMatches d e) = records := by
    rw [hs', List.filter_append]
    have hleft : (s.filter (fun r0 => decide (r0.id ∉ keys))).filter (keyMatches d e) = [] := by
      rw [List.filter_filter]
      apply List.filter_eq_nil_iff.mpr
      intro a ha
      by_cases hk : keyMatches d e a = true
      · have : a.id ∈ keys := List.mem_map_of_mem (fun r0 => r0.id) (List.mem_filter.mpr ⟨ha, hk⟩)
        simp [hk, this]
      · simp [hk]
    have hright : records.filter (keyMatches d e) = records := by
      apply List.filter_eq_self.mpr
      intro a ha
      obtain ⟨h1, h2, -⟩ := hkeysub a ha
      simp [keyMatches, h1, h2]
    rw [hleft, hright, List.nil_append]
  refine ⟨?_, ?_, ?_, ?_⟩
  · -- (1) round-trip
    unfold getStoredReceipts
    simp only [ensureDraftAndExpense, hd, he, if_neg, ite_false, Except.map,
      bind, Except.bind, pure, Except.pure, normalizeIds]
    rw [hfilter]
    simp
  · -- byte identity
    exact map_blob_zipWith_buildRecord d e files ids hlen
  · -- (2) deleting one id keeps the others retrievable
    unfold deleteReceipts at hdel
    simp only [ensureDraftAndExpense, hd, he, if_neg, ite_false, Except.map,
      bind, Except.bind, pure, Except.pure, normalizeIds, List.isEmpty_cons] at hdel
    rw [if_neg (by decide)] at hdel
    simp only [List.foldl_cons, List.foldl_nil, Except.ok.injEq] at hdel
    have hrs'' : r ∈ s'' := by
      rw [← hdel]
      unfold idbDelete
      exact List.mem_filter.mpr ⟨hr, by simp [hrx]⟩
    unfold getStoredReceipts
    simp only [ensureDraftAndExpense, hrd, hre, if_neg, ite_false, Except.map,
      bind, Except.bind, pure, Except.pure, normalizeIds]
    refine ⟨_, rfl, ?_⟩
    simp only [List.filter_filter]
    apply List.mem_map_of_mem (fun r0 => (normalizeMetadata r0, r0.blob))
    apply List.mem_filter.mpr
    refine ⟨hrs'', ?_⟩
    simp [keyMatches]
  · -- (3) clearing the draft
    unfold clearReceiptsForDraft
    rw [if_neg hd, foldl_idbDelete_eq_filter]
    unfold getStoredReceipts
    simp only [ensureDraftAndExpense, hd, he', if_neg, ite_false, Except.map,
      bind, Except.bind, pure, Except.pure, normalizeIds]
    have hnil : ((s'.filter (fun r0 =>
        decide (r0.id ∉ (s'.filter (draftRangeMatches d)).map (fun r1 => r1.id)))).filter
          (keyMatches d e')) = [] := by
      rw [List.filter_filter]
      apply List.filter_eq_nil_iff.mpr
      intro a ha
      by_cases hk : keyMatches d e' a = true
      · have hrange : draftRangeMatches d a = true := by
          have h1 : a.draftId = d := by
            have := hk
            simp only [keyMatches, Bool.and_eq_true, decide_eq_true_eq] at this
            exact this.1
          have h2 : a.expenseId = e' := by
            simp only [keyMatches, Bool.and_eq_true, decide_eq_true_eq] at hk
            exact hk.2
          simp [draftRangeMatches, h1, h2, hle]
        have : a.id ∈ (s'.filter (draftRangeMatches d)).map (fun r1 => r1.id) :=
          List.mem_map_of_mem (fun r1 => r1.id) (List.mem_filter.mpr ⟨ha, hrange⟩)
        simp [hk, this]
      · simp [hk]
    rw [hnil]
    simp

/-- C9 witness: a concrete save of two files, deleting one id, and
clearing the draft, with ordinary expense identifiers. -/
theorem draft_store_roundtrip_witness :
    getStoredReceipts
        [ buildRecord "d1" "e1"
            { fileName := "a.pdf", fileSize := 3, contentType := "application/pdf",
              lastModified := 1, blob := [1, 2, 3] } "ra"
        , buildRecord "d1" "e1"
            { fileName := "b.png", fileSize := 2, contentType := "image/png",
              lastModified := 4, blob := [4, 5] } "rb" ] "d1" "e1" none =
      .ok ((List.zipWith (buildRecord "d1" "e1")
          [ { fileName := "a.pdf", fileSize := 3, contentType := "application/pdf",
              lastModified := 1, blob := [1, 2, 3] }
          , { fileName := "b.png", fileSize := 2, contentType := "image/png",
              lastModified := 4, blob := [4, 5] } ] ["ra", "rb"]).map
        (fun rec => (normalizeMetadata rec, rec.blob))) ∧
    (List.zipWith (buildRecord "d1" "e1")
        [ { fileName := "a.pdf", fileSize := 3, contentType := "application/pdf",
            lastModified := 1, blob := [1, 2, 3] }
        , { fileName := "b.png", fileSize := 2, contentType := "image/png",
            lastModified := 4, blob := [4, 5] } ] ["ra", "rb"]).map
        (fun rec => rec.blob) =
      ([ { fileName := "a.pdf", fileSize := 3, contentType := "application/pdf",
           lastModified := 1, blob := [1, 2, 3] }
       , { fileName := "b.png", fileSize := 2, contentType := "image/png",
           lastModified := 4, blob := [4, 5] } ] : List FileInput).map (fun f => f.blob) ∧
    (∃ l, getStoredReceipts
        [ buildRecord "d1" "e1"
            { fileName := "b.png", fileSize := 2, contentType := "image/png",
              lastModified := 4, blob := [4, 5] } "rb" ]
        (buildRecord "d1" "e1"
            { fileName := "b.png", fileSize := 2, contentType := "image/png",
              lastModified := 4, blob := [4, 5] } "rb").draftId
        (buildRecord "d1" "e1"
            { fileName := "b.png", fileSize := 2, contentType := "image/png",
              lastModified := 4, blob := [4, 5] } "rb").expenseId none = .ok l ∧
      (normalizeMetadata (buildRecord "d1" "e1"
          { fileName := "b.png", fileSize := 2, contentType := "image/png",
            lastModified := 4, blob := [4, 5] } "rb"),
        (buildRecord "d1" "e1"
            { fileName := "b.png", fileSize := 2, contentType := "image/png",
              lastModified := 4, blob := [4, 5] } "rb").blob) ∈ l) ∧
    getStoredReceipts
        (clearReceiptsForDraft
          [ buildRecord "d1" "e1"
              { fileName := "a.pdf", fileSize := 3, contentType := "application/pdf",
                lastModified := 1, blob := [1, 2, 3] } "ra"
          , buildRecord "d1" "e1"
              { fileName := "b.png", fileSize := 2, contentType := "image/png",
                lastModified := 4, blob := [4, 5] } "rb" ] "d1") "d1" "e1" none =
      .ok [] :=
  draft_store_roundtrip [] "d1" "e1"
    [ { fileName := "a.pdf", fileSize := 3, contentType := "application/pdf",
        lastModified := 1, blob := [1, 2, 3] }
    , { fileName := "b.png", fileSize := 2, contentType := "image/png",
        lastModified := 4, blob := [4, 5] } ] ["ra", "rb"]
    [ normalizeMetadata (buildRecord "d1" "e1"
        { fileName := "a.pdf", fileSize := 3, contentType := "application/pdf",
          lastModified := 1, blob := [1, 2, 3] } "ra")
    , normalizeMetadata (buildRecord "d1" "e1"
        { fileName := "b.png", fileSize := 2, contentType := "image/png",
          lastModified := 4, blob := [4, 5] } "rb") ]
    [ buildRecord "d1" "e1"
        { fileName := "a.pdf", fileSize := 3, contentType := "application/pdf",
          lastModified := 1, blob := [1, 2, 3] } "ra"
    , buildRecord "d1" "e1"
        { fileName := "b.png", fileSize := 2, contentType := "image/png",
          lastModified := 4, blob := [4, 5] } "rb" ]
    "ra"
    (buildRecord "d1" "e1"
      { fileName := "b.png", fileSize := 2, contentType := "image/png",
        lastModified := 4, blob := [4, 5] } "rb")
    [ buildRecord "d1" "e1"
        { fileName := "b.png", fileSize := 2, contentType := "image/png",
          lastModified := 4, blob := [4, 5] } "rb" ]
    "e1"
    (by decide) (by decide) (by decide) (by decide) (by decide) (by decide)
    (by rfl) (by rfl) (by decide) (by decide) (by decide) (by decide)
    (by decide) (by decide)

/-- C9 counterexample: the claim's "after clearing the draft, zero
receipts are retrievable for that draftId" fails for an expense
identifier above the `'￿'` range bound: a receipt saved under
expenseId `'￿￿'` survives `clearReceiptsForDraft` and is still
retrieved afterwards. -/
theorem draft_store_clear_counterexample :
    saveReceiptsForExpense [] "d1" (String.mk [Char.ofNat 0xFFFF, Char.ofNat 0xFFFF])
        [{ fileName := "a.pdf", fileSize := 1, contentType := "application/pdf",
           lastModified := 0, blob := [7] }] ["ra"] =
      .ok ([ normalizeMetadata (buildRecord "d1"
              (String.mk [Char.ofNat 0xFFFF, Char.ofNat 0xFFFF])
              { fileName := "a.pdf", fileSize := 1, contentType := "application/pdf",
                lastModified := 0, blob := [7] } "ra") ],
        [ buildRecord "d1" (String.mk [Char.ofNat 0xFFFF, Char.ofNat 0xFFFF])
            { fileName := "a.pdf", fileSize := 1, contentType := "application/pdf",
              lastModified := 0, blob := [7] } "ra" ]) ∧
    getStoredReceipts
        (clearReceiptsForDraft
          [ buildRecord "d1" (String.mk [Char.ofNat 0xFFFF, Char.ofNat 0xFFFF])
              { fileName := "a.pdf", fileSize := 1, contentType := "application/pdf",
                lastModified := 0, blob := [7] } "ra" ] "d1")
        "d1" (String.mk [Char.ofNat 0xFFFF, Char.ofNat 0xFFFF]) none =
      .ok [ (normalizeMetadata (buildRecord "d1"
              (String.mk [Char.ofNat 0xFFFF, Char.ofNat 0xFFFF])
              { fileName := "a.pdf", fileSize := 1, contentType := "application/pdf",
                lastModified := 0, blob := [7] } "ra"), [7]) ] ∧
    [ (normalizeMetadata (buildRecord "d1"
          (String.mk [Char.ofNat 0xFFFF, Char.ofNat 0xFFFF])
          { fileName := "a.pdf", fileSize := 1, contentType := "application/pdf",
            lastModified := 0, blob := [7] } "ra"), ([7] : List Nat)) ] ≠ [] :=
  ⟨by rfl, by rfl, by decide⟩

/-! ### Theorems: submission shape and reconciliation (C6, C7) -/

/-- C6: a valid submission (manager email present, fresh `reportId`, no
pre-existing rows for that report) commits — in the one transaction
step — exactly one report row with status `SUBMITTED`, one expense row
per submitted expense, and exactly the two `PENDING` approval rows for
the MANAGER and FINANCE stages; an error leaves the store untouched
(`applySubmit`), so no partial subset is ever observable. -/
theorem submission_creates_rows (db : Db) (p : ReportPayload) (db' : Db)
    (hvalid : toLowerString (trimString (p.headerManagerEmail.getD "")) ≠ "")
    (hnew : db.reports.any (fun r => r.reportId = p.reportId) = false)
    (hexp : ∀ e0 ∈ db.expenses, e0.reportId ≠ p.reportId)
    (happ : ∀ a ∈ db.approvals, a.reportId ≠ p.reportId)
    (hsub : submitReport db p = .ok db') :
    db'.reports.filter (fun r => r.reportId = p.reportId) =
        [{ reportId := p.reportId
           employeeEmail := toLowerString p.employeeEmail
           finalizedAt := p.finalizedAt
           managerEmail := toLowerString (trimString (p.headerManagerEmail.getD ""))
           status := .SUBMITTED }] ∧
      (db'.expenses.filter (fun e0 => e0.reportId = p.reportId)).length =
        p.expenses.length ∧
      db'.approvals.filter (fun a => a.reportId = p.reportId) =
        [ { reportId := p.reportId, stage := .MANAGER, status := .PENDING
            decidedBy := none, decidedAt := none, note := none }
        , { reportId := p.reportId, stage := .FINANCE, status := .PENDING
            decidedBy := none, decidedAt := none, note := none } ] := by
  unfold submitReport at hsub
  rw [if_neg hvalid, if_neg (by simp [hnew])] at hsub
  rw [Except.ok.injEq] at hsub
  subst hsub
  have hrepnil : db.reports.filter (fun r => r.reportId = p.reportId) = [] := by
    apply List.filter_eq_nil_iff.mpr
    intro r hr
    have := List.any_eq_false.mp hnew r hr
    simpa using this
  have hexpnil : db.expenses.filter (fun e0 => e0.reportId = p.reportId) = [] := by
    apply List.filter_eq_nil_iff.mpr
    intro e0 he0
    simpa using hexp e0 he0
  have happnil : db.approvals.filter (fun a => a.reportId = p.reportId) = [] := by
    apply List.filter_eq_nil_iff.mpr
    intro a ha
    simpa using happ a ha
  refine ⟨?_, ?_, ?_⟩
  · simp [List.filter_append, hrepnil]
  · rw [List.filter_append, hexpnil, List.nil_append]
    have hall : (p.expenses.enum.map (fun ie =>
        ({ id := db.nextExpenseId + ie.1
           reportId := p.reportId
           externalId := ie.2.expenseId
           category := ie.2.category
           amount := ie.2.amount
           currency := ie.2.currency } : ExpenseRow))).filter
          (fun e0 => e0.reportId = p.reportId) =
        p.expenses.enum.map (fun ie =>
        ({ id := db.nextExpenseId + ie.1
           reportId := p.reportId
           externalId := ie.2.expenseId
           category := ie.2.category
           amount := ie.2.amount
           currency := ie.2.currency } : ExpenseRow)) := by
      apply List.filter_eq_self.mpr
      intro a ha
      rcases List.mem_map.mp ha with ⟨ie, -, hie⟩
      subst hie
      simp
    rw [hall]
    simp [List.enum_length]
  · simp [List.filter_append, happnil]

/-- C6 witness: a concrete submission with two expenses. -/
theorem submission_creates_rows_witness :
    (applySubmit
        { reports := [], expenses := [], approvals := [], receipts := []
          nextExpenseId := 10, nextReceiptId := 0 }
        { reportId := "r1", employeeEmail := "E@x.y", finalizedAt := 5
          headerManagerEmail := some " M@x.y "
          expenses := [ { expenseId := some "e1", category := "travel",
                          amount := "10", currency := "USD" }
                      , { expenseId := none, category := "meals",
                          amount := "4", currency := "USD" } ] }).reports.filter
        (fun r => r.reportId = "r1") =
      [{ reportId := "r1", employeeEmail := toLowerString "E@x.y",
         finalizedAt := 5,
         managerEmail := toLowerString (trimString ((some " M@x.y ").getD "")),
         status := .SUBMITTED }] ∧
      ((applySubmit
          { reports := [], expenses := [], approvals := [], receipts := []
            nextExpenseId := 10, nextReceiptId := 0 }
          { reportId := "r1", employeeEmail := "E@x.y", finalizedAt := 5
            headerManagerEmail := some " M@x.y "
            expenses := [ { expenseId := some "e1", category := "travel",
                            amount := "10", currency := "USD" }
                        , { expenseId := none, category := "meals",
                            amount := "4", currency := "USD" } ] }).expenses.filter
          (fun e0 => e0.reportId = "r1")).length = 2 ∧
      (applySubmit
          { reports := [], expenses := [], approvals := [], receipts := []
            nextExpenseId := 10, nextReceiptId := 0 }
          { reportId := "r1", employeeEmail := "E@x.y", finalizedAt := 5
            headerManagerEmail := some " M@x.y "
            expenses := [ { expenseId := some "e1", category := "travel",
                            amount := "10", currency := "USD" }
                        , { expenseId := none, category := "meals",
                            amount := "4", currency := "USD" } ] }).approvals.filter
        (fun a => a.reportId = "r1") =
      [ { reportId := "r1", stage := .MANAGER, status := .PENDING
          decidedBy := none, decidedAt := none, note := none }
      , { reportId := "r1", stage := .FINANCE, status := .PENDING
          decidedBy := none, decidedAt := none, note := none } ] := by
  have h := submission_creates_rows
    { reports := [], expenses := [], approvals := [], receipts := []
      nextExpenseId := 10, nextReceiptId := 0 }
    { reportId := "r1", employeeEmail := "E@x.y", finalizedAt := 5
      headerManagerEmail := some " M@x.y "
      expenses := [ { expenseId := some "e1", category := "travel",
                      amount := "10", currency := "USD" }
                  , { expenseId := none, category := "meals",
                      amount := "4", currency := "USD" } ] }
    (applySubmit
      { reports := [], expenses := [], approvals := [], receipts := []
        nextExpenseId := 10, nextReceiptId := 0 }
      { reportId := "r1", employeeEmail := "E@x.y", finalizedAt := 5
        headerManagerEmail := some " M@x.y "
        expenses := [ { expenseId := some "e1", category := "travel",
                        amount := "10", currency := "USD" }
                    , { expenseId := none, category := "meals",
                        amount := "4", currency := "USD" } ] })
    (by decide) (by decide) (by decide) (by decide) (by rfl)
  simpa using h

/-- C7: after the submission transaction, receipt linkage is reconciled
both ways for the submitted report: a receipt whose `clientExpenseId`
matches some expense's `externalId` is bound to such an expense's
durable id, and every bound receipt points at an expense whose
`externalId` equals the receipt's `clientExpenseId`.  The hypotheses
record how receipts are created by the upload route: unreconciled
(`expenseId` null) and with a non-empty `clientExpenseId`. -/
theorem receipt_late_binding (db : Db) (p : ReportPayload) (db' : Db)
    (rc : ReceiptRow)
    (hnull : ∀ rc0 ∈ db.receipts, rc0.reportId = p.reportId → rc0.expenseId = none)
    (hnondegen : ∀ rc0 ∈ db.receipts, rc0.reportId = p.reportId →
      rc0.clientExpenseId ≠ some "")
    (hsub : submitReport db p = .ok db')
    (hrc : rc ∈ db'.receipts) (hrep : rc.reportId = p.reportId) :
    (∀ c, rc.clientExpenseId = some c →
      (∃ e1 ∈ db'.expenses, e1.reportId = p.reportId ∧ e1.externalId = some c) →
      ∃ e0 ∈ db'.expenses, e0.reportId = p.reportId ∧ e0.externalId = some c ∧
        rc.expenseId = some e0.id) ∧
    (∀ i, rc.expenseId = some i →
      ∃ e0 ∈ db'.expenses, e0.reportId = p.reportId ∧ e0.id = i ∧
        e0.externalId = rc.clientExpenseId) := by
  unfold submitReport at hsub
  split at hsub
  · rcases ite_eq_iff.mp hsub with ⟨-, h⟩ | ⟨-, h⟩ <;> exact Except.noConfusion h
  · simp only [] at hsub
    split at hsub
    · exact Except.noConfusion hsub
    · rw [Except.ok.injEq] at hsub
      subst hsub
      simp only at hrc hrep ⊢
      set pid := p.reportId with hpid
      set expenses1 := db.expenses ++ p.expenses.enum.map (fun ie =>
        ({ id := db.nextExpenseId + ie.1
           reportId := pid
           externalId := ie.2.expenseId
           category := ie.2.category
           amount := ie.2.amount
           currency := ie.2.currency } : ExpenseRow)) with hexpenses1
      set reportExpenses := expenses1.filter (fun e0 => e0.reportId = pid)
        with hreportExpenses
      rcases List.mem_map.mp hrc with ⟨rc0, hrc0, hbind⟩
      have hnull0 : rc0.expenseId = none := by
        apply hnull rc0 hrc0
        have : rc.reportId = rc0.reportId := by
          rw [← hbind]
          unfold rebindReceipt
          split
          · cases hcl : rc0.clientExpenseId with
            | none => simp
            | some c0 =>
              simp only [hcl]
              split
              · rfl
              · cases hlook : lookupExpenseId reportExpenses c0 <;> simp
          · rfl
        rw [← this, hrep]
      have hrep0 : rc0.reportId = pid := by
        have : rc.reportId = rc0.reportId := by
          rw [← hbind]
          unfold rebindReceipt
          split
          · cases hcl : rc0.clientExpenseId with
            | none => simp
            | some c0 =>
              simp only [hcl]
              split
              · rfl
              · cases hlook : lookupExpenseId reportExpenses c0 <;> simp
          · rfl
        rw [← this, hrep]
      have hnd0 : rc0.clientExpenseId ≠ some "" := hnondegen rc0 hrc0 hrep0
      -- Facts about a successful lookup.
      have hfound : ∀ c0 i0, lookupExpenseId reportExpenses c0 = some i0 →
          ∃ e1 ∈ expenses1, e1.reportId = pid ∧ e1.externalId = some c0 ∧ e1.id = i0 := by
        intro c0 i0 hlook
        unfold lookupExpenseId at hlook
        rcases Option.map_eq_some'.mp hlook with ⟨e1, hfind, hid⟩
        have he1p := List.find?_some hfind
        have he1mem := List.mem_of_find?_eq_some hfind
        rw [List.mem_reverse] at he1mem
        have he1mem2 := (List.mem_filter.mp he1mem).1
        have he1rep : e1 ∈ expenses1 ∧ e1.reportId = pid := by
          have := List.mem_filter.mp he1mem2
          exact ⟨this.1, by simpa using this.2⟩
        exact ⟨e1, he1rep.1, he1rep.2, by simpa using he1p, hid⟩
      -- A matching expense makes the lookup succeed.
      have hlookup_some : ∀ c0, c0 ≠ "" →
          (∃ e1 ∈ expenses1, e1.reportId = pid ∧ e1.externalId = some c0) →
          (lookupExpenseId reportExpenses c0).isSome := by
        intro c0 hc0 ⟨e1, he1, he1rep, he1ext⟩
        unfold lookupExpenseId
        rw [Option.isSome_map']
        rw [List.find?_isSome]
        refine ⟨e1, ?_, by simpa using he1ext⟩
        rw [List.mem_reverse]
        apply List.mem_filter.mpr
        refine ⟨List.mem_filter.mpr ⟨he1, by simpa using he1rep⟩, ?_⟩
        simp [truthy, he1ext, hc0]
      rw [← hbind]
      unfold rebindReceipt
      rw [if_pos hrep0]
      cases hcl : rc0.clientExpenseId with
      | none =>
        refine ⟨?_, ?_⟩
        · intro c hc
          rw [hcl] at hc
          exact absurd hc (by simp)
        · intro i hi
          rw [hnull0] at hi
          exact absurd hi (by simp)
      | some c0 =>
        have hc0ne : c0 ≠ "" := by
          intro hc0
          exact hnd0 (by rw [hcl, hc0])
        simp only []
        rw [if_neg hc0ne]
        cases hlook : lookupExpenseId reportExpenses c0 with
        | none =>
          refine ⟨?_, ?_⟩
          · intro c hc hex
            have hc' : c0 = c := by simpa [hcl] using hc
            subst hc'
            exfalso
            have hsome := hlookup_some c0 hc0ne hex
            rw [hlook] at hsome
            simp at hsome
          · intro i hi
            rw [hnull0] at hi
            exact absurd hi (by simp)
        | some i0 =>
          obtain ⟨e1, he1, he1rep, he1ext, he1id⟩ := hfound c0 i0 hlook
          refine ⟨?_, ?_⟩
          · intro c hc hex
            have hc' : c0 = c := by simpa [hcl] using hc
            subst hc'
            exact ⟨e1, he1, he1rep, he1ext, by simp [he1id]⟩
          · intro i hi
            have hi' : i0 = i := by simpa using hi
            subst hi'
            exact ⟨e1, he1, he1rep, he1id, by simp [hcl, he1ext]⟩

/-- C7 witness: one receipt uploaded under client id `e1`, reconciled to
the expense created for `e1`. -/
theorem receipt_late_binding_witness :
    (∀ c, (some "e1" : Option String) = some c →
      (∃ e1 ∈ (applySubmit
          { reports := [], expenses := [], approvals := []
            receipts := [ { id := 0, reportId := "r1", clientExpenseId := some "e1",
                            expenseId := none, fileName := "a.pdf",
                            contentType := "application/pdf", fileSize := 1,
                            storageProvider := "memory", storageBucket := some "memory",
                            storageKey := "k", storageUrl := some "memory://k" } ]
            nextExpenseId := 10, nextReceiptId := 1 }
          { reportId := "r1", employeeEmail := "e@x.y", finalizedAt := 5
            headerManagerEmail := some "m@x.y"
            expenses := [ { expenseId := some "e1", category := "travel",
                            amount := "10", currency := "USD" } ] }).expenses,
        e1.reportId = "r1" ∧ e1.externalId = some c) →
      ∃ e0 ∈ (applySubmit
          { reports := [], expenses := [], approvals := []
            receipts := [ { id := 0, reportId := "r1", clientExpenseId := some "e1",
                            expenseId := none, fileName := "a.pdf",
                            contentType := "application/pdf", fileSize := 1,
                            storageProvider := "memory", storageBucket := some "memory",
                            storageKey := "k", storageUrl := some "memory://k" } ]
            nextExpenseId := 10, nextReceiptId := 1 }
          { reportId := "r1", employeeEmail := "e@x.y", finalizedAt := 5
            headerManagerEmail := some "m@x.y"
            expenses := [ { expenseId := some "e1", category := "travel",
                            amount := "10", currency := "USD" } ] }).expenses,
        e0.reportId = "r1" ∧ e0.externalId = some c ∧
          (rebindReceipt "r1"
            [ { id := 10, reportId := "r1", externalId := some "e1",
                category := "travel", amount := "10", currency := "USD" } ]
            { id := 0, reportId := "r1", clientExpenseId := some "e1",
              expenseId := none, fileName := "a.pdf",
              contentType := "application/pdf", fileSize := 1,
              storageProvider := "memory", storageBucket := some "memory",
              storageKey := "k", storageUrl := some "memory://k" }).expenseId =
            some e0.id) ∧
    (∀ i, (rebindReceipt "r1"
            [ { id := 10, reportId := "r1", externalId := some "e1",
                category := "travel", amount := "10", currency := "USD" } ]
            { id := 0, reportId := "r1", clientExpenseId := some "e1",
              expenseId := none, fileName := "a.pdf",
              contentType := "application/pdf", fileSize := 1,
              storageProvider := "memory", storageBucket := some "memory",
              storageKey := "k", storageUrl := some "memory://k" }).expenseId = some i →
      ∃ e0 ∈ (applySubmit
          { reports := [], expenses := [], approvals := []
            receipts := [ { id := 0, reportId := "r1", clientExpenseId := some "e1",
                            expenseId := none, fileName := "a.pdf",
                            contentType := "application/pdf", fileSize := 1,
                            storageProvider := "memory", storageBucket := some "memory",
                            storageKey := "k", storageUrl := some "memory://k" } ]
            nextExpenseId := 10, nextReceiptId := 1 }
          { reportId := "r1", employeeEmail := "e@x.y", finalizedAt := 5
            headerManagerEmail := some "m@x.y"
            expenses := [ { expenseId := some "e1", category := "travel",
                            amount := "10", currency := "USD" } ] }).expenses,
        e0.reportId = "r1" ∧ e0.id = i ∧ e0.externalId = some "e1") := by
  have h := receipt_late_binding
    { reports := [], expenses := [], approvals := []
      receipts := [ { id := 0, reportId := "r1", clientExpenseId := some "e1",
                      expenseId := none, fileName := "a.pdf",
                      contentType := "application/pdf", fileSize := 1,
                      storageProvider := "memory", storageBucket := some "memory",
                      storageKey := "k", storageUrl := some "memory://k" } ]
      nextExpenseId := 10, nextReceiptId := 1 }
    { reportId := "r1", employeeEmail := "e@x.y", finalizedAt := 5
      headerManagerEmail := some "m@x.y"
      expenses := [ { expenseId := some "e1", category := "travel",
                      amount := "10", currency := "USD" } ] }
    (applySubmit
      { reports := [], expenses := [], approvals := []
        receipts := [ { id := 0, reportId := "r1", clientExpenseId := some "e1",
                        expenseId := none, fileName := "a.pdf",
                        contentType := "application/pdf", fileSize := 1,
                        storageProvider := "memory", storageBucket := some "memory",
                        storageKey := "k", storageUrl := some "memory://k" } ]
        nextExpenseId := 10, nextReceiptId := 1 }
      { reportId := "r1", employeeEmail := "e@x.y", finalizedAt := 5
        headerManagerEmail := some "m@x.y"
        expenses := [ { expenseId := some "e1", category := "travel",
                        amount := "10", currency := "USD" } ] })
    (rebindReceipt "r1"
      [ { id := 10, reportId := "r1", externalId := some "e1",
          category := "travel", amount := "10", currency := "USD" } ]
      { id := 0, reportId := "r1", clientExpenseId := some "e1",
        expenseId := none, fileName := "a.pdf",
        contentType := "application/pdf", fileSize := 1,
        storageProvider := "memory", storageBucket := some "memory",
        storageKey := "k", storageUrl := some "memory://k" })
    (by decide) (by decide) (by rfl) (by decide) (by decide)
  exact h

/-! ### Theorems: export generation (C8) -/

theorem mapM_eq_map {α β : Type} (f : α → Except Unit β) (g : α → β) (l : List α)
    (h : ∀ a ∈ l, f a = .ok (g a)) : l.mapM f = .ok (l.map g) := by
  induction l with
  | nil => rfl
  | cons a as ih =>
    rw [List.mapM_cons, h a (by simp), ih (fun a' ha' => h a' (by simp [ha']))]
    rfl

/-- C8 counterexample: when re-issuing the download URL for a single
receipt rejects (throws), the export as a whole fails — the route
`await`s inside its outer `try`/`catch` — instead of substituting the
stored URL and continuing; the other receipt, whose issuer call
succeeds, is not emitted either. -/
theorem export_url_failure_counterexample :
    exportArchive
        (fun d => if d.storageKey = "k1" then .error () else .ok (some "https://ok"))
        { reports := [ { reportId := "r1", employeeEmail := "e@x.y",
                         finalizedAt := 5, managerEmail := "m@x.y",
                         status := .FINANCE_APPROVED } ]
          expenses := []
          approvals := []
          receipts :=
            [ { id := 1, reportId := "r1", clientExpenseId := some "e1",
                expenseId := some 10, fileName := "a.pdf",
                contentType := "application/pdf", fileSize := 1,
                storageProvider := "s3", storageBucket := some "b",
                storageKey := "k1", storageUrl := some "https://stored/k1" }
            , { id := 2, reportId := "r1", clientExpenseId := some "e1",
                expenseId := some 10, fileName := "b.pdf",
                contentType := "application/pdf", fileSize := 1,
                storageProvider := "s3", storageBucket := some "b",
                storageKey := "k2", storageUrl := some "https://stored/k2" } ]
          nextExpenseId := 0, nextReceiptId := 3 }
        0 10 none = Except.error () ∧
      (fun (d : StoredReceipt) =>
          if d.storageKey = "k1" then Except.error ()
          else Except.ok (some "https://ok"))
        { storageProvider := "s3", storageBucket := some "b",
          storageKey := "k2", storageUrl := some "https://stored/k2" } =
        Except.ok (some "https://ok") :=
  ⟨by rfl, by rfl⟩

/-- C8 (amended): when every issuer call resolves (possibly to
`undefined`), the export completes with every report, expense and
receipt row produced, a receipt whose issuer resolved to `undefined`
getting `downloadUrl ?? storageUrl ?? ''` — the best-available stored
URL; an issuer call that rejects aborts the export as a whole (see the
counterexample). -/
theorem export_substitutes_stored_url (issue : UrlIssuer) (db : Db)
    (start stop : Nat) (employees : Option (List String))
    (h : ∀ rc ∈ db.receipts, ∃ u, issue rc.storedDesc = .ok u) :
    exportArchive issue db start stop employees =
      .ok
        ( "report_header" ::
            (eligibleReports db start stop employees).map (fun r =>
              reportCsvRow r
                (db.approvals.find? (fun a => a.reportId = r.reportId ∧ a.stage = .MANAGER))
                (db.approvals.find? (fun a => a.reportId = r.reportId ∧ a.stage = .FINANCE)))
        , "expense_header" ::
            ((eligibleReports db start stop employees).map (fun r =>
              (db.expenses.filter (fun e0 => e0.reportId = r.reportId)).map
                expenseCsvRow)).flatten
        , "receipt_header" ::
            ((eligibleReports db start stop employees).map (fun r =>
              (db.receipts.filter (fun rc => rc.reportId = r.reportId)).map
                (fun rc => receiptCsvRow rc (issuedUrl (issue rc.storedDesc))))).flatten ) ∧
      ∀ rc : ReceiptRow, receiptCsvRow rc none = receiptCsvRow rc rc.storageUrl := by
  constructor
  · unfold exportArchive
    have hrep : ∀ r ∈ eligibleReports db start stop employees,
        exportRowsForReport issue db r =
          .ok ( reportCsvRow r
                  (db.approvals.find? (fun a => a.reportId = r.reportId ∧ a.stage = .MANAGER))
                  (db.approvals.find? (fun a => a.reportId = r.reportId ∧ a.stage = .FINANCE))
              , (db.expenses.filter (fun e0 => e0.reportId = r.reportId)).map expenseCsvRow
              , (db.receipts.filter (fun rc => rc.reportId = r.reportId)).map
                  (fun rc => receiptCsvRow rc (issuedUrl (issue rc.storedDesc))) ) := by
      intro r _
      unfold exportRowsForReport
      have hmap : (db.receipts.filter (fun rc => rc.reportId = r.reportId)).mapM
          (fun rc => (issue rc.storedDesc).map (receiptCsvRow rc)) =
            .ok ((db.receipts.filter (fun rc => rc.reportId = r.reportId)).map
              (fun rc => receiptCsvRow rc (issuedUrl (issue rc.storedDesc)))) := by
        apply mapM_eq_map
        intro rc hrc
        obtain ⟨u, hu⟩ := h rc (List.mem_filter.mp hrc).1
        rw [hu]
        simp [issuedUrl, Except.map]
      simp only []
      rw [hmap]
      rfl
    rw [mapM_eq_map _ _ _ hrep]
    simp [Except.map, Function.comp_def, Bool.decide_and]
  · intro rc
    unfold receiptCsvRow
    cases rc.storageUrl <;> simp

/-- C8 witness: an issuer that resolves to `undefined` for one stored
key and to a fresh URL otherwise. -/
theorem export_substitutes_stored_url_witness :
    exportArchive
        (fun d => if d.storageKey = "k1" then .ok none else .ok (some "https://fresh"))
        { reports := [ { reportId := "r1", employeeEmail := "e@x.y",
                         finalizedAt := 5, managerEmail := "m@x.y",
                         status := .FINANCE_APPROVED } ]
          expenses := [ { id := 10, reportId := "r1", externalId := some "e1",
                          category := "travel", amount := "10", currency := "USD" } ]
          approvals := []
          receipts :=
            [ { id := 1, reportId := "r1", clientExpenseId := some "e1",
                expenseId := some 10, fileName := "a.pdf",
                contentType := "application/pdf", fileSize := 1,
                storageProvider := "s3", storageBucket := some "b",
                storageKey := "k1", storageUrl := some "https://stored/k1" }
            , { id := 2, reportId := "r1", clientExpenseId := some "e1",
                expenseId := some 10, fileName := "b.pdf",
                contentType := "application/pdf", fileSize := 1,
                storageProvider := "s3", storageBucket := some "b",
                storageKey := "k2", storageUrl := some "https://stored/k2" } ]
          nextExpenseId := 0, nextReceiptId := 3 }
        0 10 none =
      .ok
        ( "report_header" ::
            (eligibleReports
              { reports := [ { reportId := "r1", employeeEmail := "e@x.y",
                               finalizedAt := 5, managerEmail := "m@x.y",
                               status := .FINANCE_APPROVED } ]
                expenses := [ { id := 10, reportId := "r1", externalId := some "e1",
                                category := "travel", amount := "10", currency := "USD" } ]
                approvals := []
                receipts :=
                  [ { id := 1, reportId := "r1", clientExpenseId := some "e1",
                      expenseId := some 10, fileName := "a.pdf",
                      contentType := "application/pdf", fileSize := 1,
                      storageProvider := "s3", storageBucket := some "b",
                      storageKey := "k1", storageUrl := some "https://stored/k1" }
                  , { id := 2, reportId := "r1", clientExpenseId := some "e1",
                      expenseId := some 10, fileName := "b.pdf",
                      contentType := "application/pdf", fileSize := 1,
                      storageProvider := "s3", storageBucket := some "b",
                      storageKey := "k2", storageUrl := some "https://stored/k2" } ]
                nextExpenseId := 0, nextReceiptId := 3 } 0 10 none).map (fun r =>
              reportCsvRow r
                (List.find? (fun a => a.reportId = r.reportId ∧ a.stage = .MANAGER) [])
                (List.find? (fun a => a.reportId = r.reportId ∧ a.stage = .FINANCE) []))
        , "expense_header" ::
            ((eligibleReports
              { reports := [ { reportId := "r1", employeeEmail := "e@x.y",
                               finalizedAt := 5, managerEmail := "m@x.y",
                               status := .FINANCE_APPROVED } ]
                expenses := [ { id := 10, reportId := "r1", externalId := some "e1",
                                category := "travel", amount := "10", currency := "USD" } ]
                approvals := []
                receipts :=
                  [ { id := 1, reportId := "r1", clientExpenseId := some "e1",
                      expenseId := some 10, fileName := "a.pdf",
                      contentType := "application/pdf", fileSize := 1,
                      storageProvider := "s3", storageBucket := some "b",
                      storageKey := "k1", storageUrl := some "https://stored/k1" }
                  , { id := 2, reportId := "r1", clientExpenseId := some "e1",
                      expenseId := some 10, fileName := "b.pdf",
                      contentType := "application/pdf", fileSize := 1,
                      storageProvider := "s3", storageBucket := some "b",
                      storageKey := "k2", storageUrl := some "https://stored/k2" } ]
                nextExpenseId := 0, nextReceiptId := 3 } 0 10 none).map (fun r =>
              ([ { id := 10, reportId := "r1", externalId := some "e1",
                   category := "travel", amount := "10",
                   currency := "USD" } ].filter
                  (fun e0 => e0.reportId = r.reportId)).map expenseCsvRow)).flatten
        , "receipt_header" ::
            ((eligibleReports
              { reports := [ { reportId := "r1", employeeEmail := "e@x.y",
                               finalizedAt := 5, managerEmail := "m@x.y",
                               status := .FINANCE_APPROVED } ]
                expenses := [ { id := 10, reportId := "r1", externalId := some "e1",
                                category := "travel", amount := "10", currency := "USD" } ]
                approvals := []
                receipts :=
                  [ { id := 1, reportId := "r1", clientExpenseId := some "e1",
                      expenseId := some 10, fileName := "a.pdf",
                      contentType := "application/pdf", fileSize := 1,
                      storageProvider := "s3", storageBucket := some "b",
                      storageKey := "k1", storageUrl := some "https://stored/k1" }
                  , { id := 2, reportId := "r1", clientExpenseId := some "e1",
                      expenseId := some 10, fileName := "b.pdf",
                      contentType := "application/pdf", fileSize := 1,
                      storageProvider := "s3", storageBucket := some "b",
                      storageKey := "k2", storageUrl := some "https://stored/k2" } ]
                nextExpenseId := 0, nextReceiptId := 3 } 0 10 none).map (fun r =>
              ([ { id := 1, reportId := "r1", clientExpenseId := some "e1",
                   expenseId := some 10, fileName := "a.pdf",
                   contentType := "application/pdf", fileSize := 1,
                   storageProvider := "s3", storageBucket := some "b",
                   storageKey := "k1", storageUrl := some "https://stored/k1" }
               , { id := 2, reportId := "r1", clientExpenseId := some "e1",
                   expenseId := some 10, fileName := "b.pdf",
                   contentType := "application/pdf", fileSize := 1,
                   storageProvider := "s3", storageBucket := some "b",
                   storageKey := "k2",
                   storageUrl := some "https://stored/k2" } ].filter
                  (fun rc => rc.reportId = r.reportId)).map
                (fun rc => receiptCsvRow rc
                  (issuedUrl
                    ((fun d => if d.storageKey = "k1" then Except.ok none
                        else Except.ok (some "https://fresh")) rc.storedDesc))))).flatten ) ∧
      ∀ rc : ReceiptRow, receiptCsvRow rc none = receiptCsvRow rc rc.storageUrl :=
  export_substitutes_stored_url
    (fun d => if d.storageKey = "k1" then .ok none else .ok (some "https://fresh"))
    { reports := [ { reportId := "r1", employeeEmail := "e@x.y",
                     finalizedAt := 5, managerEmail := "m@x.y",
                     status := .FINANCE_APPROVED } ]
      expenses := [ { id := 10, reportId := "r1", externalId := some "e1",
                      category := "travel", amount := "10", currency := "USD" } ]
      approvals := []
      receipts :=
        [ { id := 1, reportId := "r1", clientExpenseId := some "e1",
            expenseId := some 10, fileName := "a.pdf",
            contentType := "application/pdf", fileSize := 1,
            storageProvider := "s3", storageBucket := some "b",
            storageKey := "k1", storageUrl := some "https://stored/k1" }
        , { id := 2, reportId := "r1", clientExpenseId := some "e1",
            expenseId := some 10, fileName := "b.pdf",
            contentType := "application/pdf", fileSize := 1,
            storageProvider := "s3", storageBucket := some "b",
            storageKey := "k2", storageUrl := some "https://stored/k2" } ]
      nextExpenseId := 0, nextReceiptId := 3 }
    0 10 none
    (fun rc hrc => by
      fin_cases hrc <;> exact ⟨_, rfl⟩)

/-! ### Theorems: client submission flow (C1) -/

theorem uploadExpense_reports (u : String → Bool) (rid : String) (db : Db)
    (cs : ClientState) (eid : String) :
    (uploadReceiptsForExpense u rid db cs eid).2.1.reports = db.reports := by
  unfold uploadReceiptsForExpense
  simp only []
  split
  · rfl
  · split
    · rfl
    · split <;> rfl

theorem uploadExpense_state (u : String → Bool) (rid : String) (db : Db)
    (cs : ClientState) (eid : String) (hwf : cs.wf) :
    (uploadReceiptsForExpense u rid db cs eid).2.2.wf ∧
      (uploadReceiptsForExpense u rid db cs eid).2.2.draftId = cs.draftId ∧
      ∀ e', u e' = false →
        (uploadReceiptsForExpense u rid db cs eid).2.2.draftStore.filter
            (keyMatches cs.draftId e') =
          cs.draftStore.filter (keyMatches cs.draftId e') := by
  unfold uploadReceiptsForExpense
  simp only []
  split
  · exact ⟨hwf, rfl, fun _ _ => rfl⟩
  · split
    · exact ⟨hwf, rfl, fun _ _ => rfl⟩
    · split
      case isTrue hup =>
        refine ⟨?_, rfl, ?_⟩
        · intro pe hpe i hi r hr hid
          have hpe' : pe ∈ cs.pending := List.mem_of_mem_filter hpe
          have hr' : r ∈ cs.draftStore := by
            rw [foldl_idbDelete_eq_filter] at hr
            exact List.mem_of_mem_filter hr
          exact hwf pe hpe' i hi r hr' hid
        · intro e' he'
          rw [foldl_idbDelete_eq_filter, List.filter_filter]
          apply List.filter_congr
          intro r hr
          by_cases hk : keyMatches cs.draftId e' r = true
          · have hne : eid ≠ e' := by
              intro hcontra
              rw [hcontra, he'] at hup
              exact Bool.false_ne_true hup
            have hnotin : r.id ∉ pendingIdsFor cs eid := by
              intro hin
              unfold pendingIdsFor at hin
              cases hfind : cs.pending.find? (fun p0 => p0.1 = eid) with
              | none => rw [hfind] at hin; simp at hin
              | some pe =>
                rw [hfind] at hin
                simp only [Option.map_some', Option.getD_some] at hin
                have hpe1 : pe.1 = eid := by
                  have := List.find?_some hfind
                  simpa using this
                have hpemem := List.mem_of_find?_eq_some hfind
                have := (hwf pe hpemem r.id hin r hr rfl).2
                rw [hpe1] at this
                have hre' : r.expenseId = e' := by
                  simp only [keyMatches, Bool.and_eq_true, decide_eq_true_eq] at hk
                  exact hk.2
                exact hne (by rw [← this, hre'])
            simp [hk, hnotin]
          · simp [Bool.and_comm, hk]
      case isFalse hup =>
        exact ⟨hwf, rfl, fun _ _ => rfl⟩

theorem uploadLoop_invariant (u : String → Bool) (rid : String)
    (l : List String) (db : Db) (cs : ClientState) (ok0 : Bool) (hwf : cs.wf) :
    (l.foldl (fun acc eid =>
        ( acc.1 && (uploadReceiptsForExpense u rid acc.2.1 acc.2.2 eid).1
        , (uploadReceiptsForExpense u rid acc.2.1 acc.2.2 eid).2 ))
      (ok0, db, cs)).2.1.reports = db.reports ∧
    (l.foldl (fun acc eid =>
        ( acc.1 && (uploadReceiptsForExpense u rid acc.2.1 acc.2.2 eid).1
        , (uploadReceiptsForExpense u rid acc.2.1 acc.2.2 eid).2 ))
      (ok0, db, cs)).2.2.wf ∧
    (l.foldl (fun acc eid =>
        ( acc.1 && (uploadReceiptsForExpense u rid acc.2.1 acc.2.2 eid).1
        , (uploadReceiptsForExpense u rid acc.2.1 acc.2.2 eid).2 ))
      (ok0, db, cs)).2.2.draftId = cs.draftId ∧
    ∀ e', u e' = false →
      (l.foldl (fun acc eid =>
          ( acc.1 && (uploadReceiptsForExpense u rid acc.2.1 acc.2.2 eid).1
          , (uploadReceiptsForExpense u rid acc.2.1 acc.2.2 eid).2 ))
        (ok0, db, cs)).2.2.draftStore.filter (keyMatches cs.draftId e') =
        cs.draftStore.filter (keyMatches cs.draftId e') := by
  induction l generalizing db cs ok0 with
  | nil => exact ⟨rfl, hwf, rfl, fun _ _ => rfl⟩
  | cons eid rest ih =>
    simp only [List.foldl_cons]
    obtain ⟨hwf1, hdid1, hfil1⟩ := uploadExpense_state u rid db cs eid hwf
    obtain ⟨ihrep, ihwf, ihdid, ihfil⟩ :=
      ih (uploadReceiptsForExpense u rid db cs eid).2.1
        (uploadReceiptsForExpense u rid db cs eid).2.2
        (ok0 && (uploadReceiptsForExpense u rid db cs eid).1) hwf1
    refine ⟨?_, ihwf, by rw [ihdid, hdid1], ?_⟩
    · rw [ihrep, uploadExpense_reports]
    · intro e' he'
      rw [hdid1] at ihfil
      rw [ihfil e' he', hfil1 e' he']

/-- C1 counterexample: with two expenses each holding one staged
receipt, the first upload succeeds (clearing that expense's staged
receipts from the Draft Store) before the second upload fails; the
submission aborts with no report row created, but the Draft Store is no
longer what it was before the attempt. -/
theorem upload_failure_counterexample :
    (finalizeSubmit (fun eid => eid = "e1")
        { reportId := "r1", employeeEmail := "e@x.y", finalizedAt := 1
          headerManagerEmail := some "m@x.y", expenses := [] }
        { reports := [], expenses := [], approvals := [], receipts := []
          nextExpenseId := 0, nextReceiptId := 0 }
        { draftId := "d1", expenseIds := ["e1", "e2"]
          pending := [("e1", ["a1"]), ("e2", ["a2"])]
          draftStore :=
            [ { id := "a1", draftId := "d1", expenseId := "e1", fileName := "a.pdf",
                fileSize := 1, contentType := "application/pdf", lastModified := 0,
                blob := [1] }
            , { id := "a2", draftId := "d1", expenseId := "e2", fileName := "b.pdf",
                fileSize := 1, contentType := "application/pdf", lastModified := 0,
                blob := [2] } ] }).1 = false ∧
      (finalizeSubmit (fun eid => eid = "e1")
        { reportId := "r1", employeeEmail := "e@x.y", finalizedAt := 1
          headerManagerEmail := some "m@x.y", expenses := [] }
        { reports := [], expenses := [], approvals := [], receipts := []
          nextExpenseId := 0, nextReceiptId := 0 }
        { draftId := "d1", expenseIds := ["e1", "e2"]
          pending := [("e1", ["a1"]), ("e2", ["a2"])]
          draftStore :=
            [ { id := "a1", draftId := "d1", expenseId := "e1", fileName := "a.pdf",
                fileSize := 1, contentType := "application/pdf", lastModified := 0,
                blob := [1] }
            , { id := "a2", draftId := "d1", expenseId := "e2", fileName := "b.pdf",
                fileSize := 1, contentType := "application/pdf", lastModified := 0,
                blob := [2] } ] }).2.1.reports = [] ∧
      (finalizeSubmit (fun eid => eid = "e1")
        { reportId := "r1", employeeEmail := "e@x.y", finalizedAt := 1
          headerManagerEmail := some "m@x.y", expenses := [] }
        { reports := [], expenses := [], approvals := [], receipts := []
          nextExpenseId := 0, nextReceiptId := 0 }
        { draftId := "d1", expenseIds := ["e1", "e2"]
          pending := [("e1", ["a1"]), ("e2", ["a2"])]
          draftStore :=
            [ { id := "a1", draftId := "d1", expenseId := "e1", fileName := "a.pdf",
                fileSize := 1, contentType := "application/pdf", lastModified := 0,
                blob := [1] }
            , { id := "a2", draftId := "d1", expenseId := "e2", fileName := "b.pdf",
                fileSize := 1, contentType := "application/pdf", lastModified := 0,
                blob := [2] } ] }).2.2.draftStore =
        [ { id := "a2", draftId := "d1", expenseId := "e2", fileName := "b.pdf",
            fileSize := 1, contentType := "application/pdf", lastModified := 0,
            blob := [2] } ] ∧
      ([ { id := "a2", draftId := "d1", expenseId := "e2", fileName := "b.pdf",
           fileSize := 1, contentType := "application/pdf", lastModified := 0,
           blob := [2] } ] : DraftStore) ≠
        [ { id := "a1", draftId := "d1", expenseId := "e1", fileName := "a.pdf",
            fileSize := 1, contentType := "application/pdf", lastModified := 0,
            blob := [1] }
        , { id := "a2", draftId := "d1", expenseId := "e2", fileName := "b.pdf",
            fileSize := 1, contentType := "application/pdf", lastModified := 0,
            blob := [2] } ] :=
  ⟨by rfl, by rfl, by rfl, by decide⟩

/-- C1 (amended): when any staged upload fails, the submission aborts
with no report row created, and the staged Draft Store records of every
expense whose upload failed are exactly what they were before the
attempt, so those can be retried without re-attaching; the staged
records of an expense whose upload succeeded were removed after the
server durably recorded the uploaded receipts (see the
counterexample). -/
theorem upload_failure_aborts (u : String → Bool) (p : ReportPayload)
    (db : Db) (cs : ClientState) (e' : String)
    (hwf : cs.wf)
    (hfail : (uploadPendingReceipts u p.reportId db cs).1 = false)
    (he' : u e' = false) :
    (finalizeSubmit u p db cs).1 = false ∧
      (finalizeSubmit u p db cs).2.1.reports = db.reports ∧
      (finalizeSubmit u p db cs).2.2.draftStore.filter (keyMatches cs.draftId e') =
        cs.draftStore.filter (keyMatches cs.draftId e') := by
  obtain ⟨hrep, -, -, hfil⟩ :=
    uploadLoop_invariant u p.reportId cs.expenseIds db cs true hwf
  unfold finalizeSubmit
  simp only []
  rw [show uploadPendingReceipts u p.reportId db cs =
    (cs.expenseIds.foldl (fun acc eid =>
        ( acc.1 && (uploadReceiptsForExpense u p.reportId acc.2.1 acc.2.2 eid).1
        , (uploadReceiptsForExpense u p.reportId acc.2.1 acc.2.2 eid).2 ))
      (true, db, cs)) from rfl] at hfail ⊢
  rw [hfail]
  simp only [Bool.false_eq_true, ite_false]
  exact ⟨trivial, hrep, hfil e' he'⟩

/-- C1 witness: the concrete two-expense scenario of the counterexample,
checked against the failed expense `e2`. -/
theorem upload_failure_aborts_witness :
    (finalizeSubmit (fun eid => eid = "e1")
        { reportId := "r1", employeeEmail := "e@x.y", finalizedAt := 1
          headerManagerEmail := some "m@x.y", expenses := [] }
        { reports := [], expenses := [], approvals := [], receipts := []
          nextExpenseId := 0, nextReceiptId := 0 }
        { draftId := "d1", expenseIds := ["e1", "e2"]
          pending := [("e1", ["a1"]), ("e2", ["a2"])]
          draftStore :=
            [ { id := "a1", draftId := "d1", expenseId := "e1", fileName := "a.pdf",
                fileSize := 1, contentType := "application/pdf", lastModified := 0,
                blob := [1] }
            , { id := "a2", draftId := "d1", expenseId := "e2", fileName := "b.pdf",
                fileSize := 1, contentType := "application/pdf", lastModified := 0,
                blob := [2] } ] }).1 = false ∧
      (finalizeSubmit (fun eid => eid = "e1")
        { reportId := "r1", employeeEmail := "e@x.y", finalizedAt := 1
          headerManagerEmail := some "m@x.y", expenses := [] }
        { reports := [], expenses := [], approvals := [], receipts := []
          nextExpenseId := 0, nextReceiptId := 0 }
        { draftId := "d1", expenseIds := ["e1", "e2"]
          pending := [("e1", ["a1"]), ("e2", ["a2"])]
          draftStore :=
            [ { id := "a1", draftId := "d1", expenseId := "e1", fileName := "a.pdf",
                fileSize := 1, contentType := "application/pdf", lastModified := 0,
                blob := [1] }
            , { id := "a2", draftId := "d1", expenseId := "e2", fileName := "b.pdf",
                fileSize := 1, contentType := "application/pdf", lastModified := 0,
                blob := [2] } ] }).2.1.reports =
        ({ reports := [], expenses := [], approvals := [], receipts := []
           nextExpenseId := 0, nextReceiptId := 0 } : Db).reports ∧
      (finalizeSubmit (fun eid => eid = "e1")
        { reportId := "r1", employeeEmail := "e@x.y", finalizedAt := 1
          headerManagerEmail := some "m@x.y", expenses := [] }
        { reports := [], expenses := [], approvals := [], receipts := []
          nextExpenseId := 0, nextReceiptId := 0 }
        { draftId := "d1", expenseIds := ["e1", "e2"]
          pending := [("e1", ["a1"]), ("e2", ["a2"])]
          draftStore :=
            [ { id := "a1", draftId := "d1", expenseId := "e1", fileName := "a.pdf",
                fileSize := 1, contentType := "application/pdf", lastModified := 0,
                blob := [1] }
            , { id := "a2", draftId := "d1", expenseId := "e2", fileName := "b.pdf",
                fileSize := 1, contentType := "application/pdf", lastModified := 0,
                blob := [2] } ] }).2.2.draftStore.filter (keyMatches "d1" "e2") =
        ([ { id := "a1", draftId := "d1", expenseId := "e1", fileName := "a.pdf",
             fileSize := 1, contentType := "application/pdf", lastModified := 0,
             blob := [1] }
         , { id := "a2", draftId := "d1", expenseId := "e2", fileName := "b.pdf",
             fileSize := 1, contentType := "application/pdf", lastModified := 0,
             blob := [2] } ] : DraftStore).filter (keyMatches "d1" "e2") :=
  upload_failure_aborts (fun eid => eid = "e1")
    { reportId := "r1", employeeEmail := "e@x.y", finalizedAt := 1
      headerManagerEmail := some "m@x.y", expenses := [] }
    { reports := [], expenses := [], approvals := [], receipts := []
      nextExpenseId := 0, nextReceiptId := 0 }
    { draftId := "d1", expenseIds := ["e1", "e2"]
      pending := [("e1", ["a1"]), ("e2", ["a2"])]
      draftStore :=
        [ { id := "a1", draftId := "d1", expenseId := "e1", fileName := "a.pdf",
            fileSize := 1, contentType := "application/pdf", lastModified := 0,
            blob := [1] }
        , { id := "a2", draftId := "d1", expenseId := "e2", fileName := "b.pdf",
            fileSize := 1, contentType := "application/pdf", lastModified := 0,
            blob := [2] } ] }
    "e2" (by unfold ClientState.wf; decide) (by rfl) (by decide)

end ComboApp
